import Mathlib

/-!
Shallow embedding of the QuantumHarmony node testing agent
(`scripts/node_agent.py`) and of the Crypto4A QRNG simulator
(`services/crypto4a-simulator/server.py`).

JSON values are modelled by an inductive type; Python operations that can
raise (`d[k]`, `d.get` on a non-dict, `len`, `int(...)`, membership tests on
non-containers) return `Option`, with `none` standing for an uncaught Python
exception.  Probes thread an explicit agent state (the `NodeAgent` instance)
and return `Option (retval × state)`; `none` means the probe raised.
Network responses are supplied by oracles: `Resp` maps (rpc id, method,
params) to the decoded node response, `FResp` maps (endpoint, http method,
payload) to the decoded faucet response, so every JSON value the transport
layer can produce is covered.
-/

namespace QHNode

/-- A decoded JSON value (the result of Python `json.loads`). -/
inductive Json where
  | null : Json
  | bool (b : Bool) : Json
  | num (n : Int) : Json
  | str (s : String) : Json
  | arr (xs : List Json) : Json
  | obj (kvs : List (String × Json)) : Json

/-- Dictionary lookup; later bindings shadow earlier ones, as in a Python
dict built by `json.loads`. -/
def jLookup (kvs : List (String × Json)) (k : String) : Option Json :=
  match kvs with
  | [] => none
  | (k', v) :: rest =>
    match jLookup rest k with
    | some w => some w
    | none => if k' == k then some v else none

/-- Python `k in x`: key membership for dicts, element equality with the
string `k` for lists, substring test for strings; `TypeError` (none) for
the other values. -/
def pyIn (j : Json) (k : String) : Option Bool :=
  match j with
  | .obj kvs => some (jLookup kvs k).isSome
  | .arr xs => some (xs.any fun x => match x with | .str s => s == k | _ => false)
  | .str s => some (strContainsL s.data k.data)
  | _ => none
where
  /-- Substring test on char lists (any position, Python `in` on strings). -/
  strContainsL (hay pat : List Char) : Bool :=
    match hay with
    | [] => pat.isEmpty
    | _ :: t => pat.isPrefixOf hay || strContainsL t pat

/-- Substring test, Python `pat in hay` for strings. -/
def strContains (hay pat : String) : Bool :=
  pyIn.strContainsL hay.data pat.data

/-- Python `x[k]` with a string key: dict indexing (none = KeyError), and
`TypeError` (none) for every non-dict value. -/
def pyIndex (j : Json) (k : String) : Option Json :=
  match j with
  | .obj kvs => jLookup kvs k
  | _ => none

/-- Python `x.get(k, d)`: only dicts have `.get` (none = AttributeError). -/
def pyGet (j : Json) (k : String) (d : Json) : Option Json :=
  match j with
  | .obj kvs => some ((jLookup kvs k).getD d)
  | _ => none

/-- Python `len(x)` (none = TypeError on unsized values). -/
def pyLen : Json → Option Nat
  | .arr xs => some xs.length
  | .str s => some s.length
  | .obj kvs => some kvs.length
  | _ => none

/-- Python truthiness of a JSON value. -/
def truthy : Json → Bool
  | .null => false
  | .bool b => b
  | .num n => n != 0
  | .str s => s != ""
  | .arr xs => !xs.isEmpty
  | .obj kvs => !kvs.isEmpty

/-- Python `isinstance(x, list)`. -/
def isList : Json → Bool
  | .arr _ => true
  | _ => false

/-- Python `int(x)` (decimal): ints, bools, decimal strings; none =
TypeError/ValueError. -/
def pyInt : Json → Option Int
  | .num n => some n
  | .bool b => some (if b then 1 else 0)
  | .str s => s.toInt?
  | _ => none

/-- Value of one hexadecimal digit. -/
def hexVal (c : Char) : Option Nat :=
  if c.isDigit then some (c.toNat - 48)
  else if 97 ≤ c.toNat && c.toNat ≤ 102 then some (c.toNat - 87)
  else if 65 ≤ c.toNat && c.toNat ≤ 70 then some (c.toNat - 55)
  else none

/-- Parse a nonempty sequence of hex digits. -/
def hexDigits (cs : List Char) : Option Nat :=
  match cs with
  | [] => none
  | _ => cs.foldl (fun acc c =>
      match acc, hexVal c with
      | some a, some v => some (16 * a + v)
      | _, _ => none) (some 0)

/-- Python `int(s, 16)`: a string with optional sign, optional `0x`/`0X`,
then hex digits; `TypeError` (none) on non-strings, `ValueError` (none) on
malformed strings. -/
def pyIntBase16 : Json → Option Int
  | .str s =>
    let p : Bool × List Char :=
      match s.data with
      | '-' :: rest => (true, rest)
      | '+' :: rest => (false, rest)
      | cs => (false, cs)
    let body : List Char :=
      match p.2 with
      | '0' :: 'x' :: rest => rest
      | '0' :: 'X' :: rest => rest
      | cs => cs
    (hexDigits body).map (fun n => if p.1 then -(n : Int) else (n : Int))
  | _ => none

mutual
/-- Python `repr` of a JSON value (as used inside container rendering). -/
def pyRepr : Json → String
  | .null => "None"
  | .bool b => if b then "True" else "False"
  | .num n => toString n
  | .str s => "\x27" ++ s ++ "\x27"
  | .arr xs => "[" ++ pyReprList xs ++ "]"
  | .obj kvs => "\x7b" ++ pyReprObj kvs ++ "\x7d"

/-- Comma-separated list rendering. -/
def pyReprList : List Json → String
  | [] => ""
  | [x] => pyRepr x
  | x :: rest => pyRepr x ++ ", " ++ pyReprList rest

/-- Comma-separated dict rendering. -/
def pyReprObj : List (String × Json) → String
  | [] => ""
  | [(k, v)] => "\x27" ++ k ++ "\x27: " ++ pyRepr v
  | (k, v) :: rest => "\x27" ++ k ++ "\x27: " ++ pyRepr v ++ ", " ++ pyReprObj rest
end

/-- Python `str(x)` as interpolated by an f-string. -/
def pyStr : Json → String
  | .str s => s
  | j => pyRepr j

/-- Python `x == s` for a string literal `s`. -/
def pyEqStr (j : Json) (s : String) : Bool :=
  match j with
  | .str t => t == s
  | _ => false

/-- Python `x == n` for an integer literal `n` (bools compare as 0/1). -/
def pyEqInt (j : Json) (n : Int) : Bool :=
  match j with
  | .num m => m == n
  | .bool b => (if b then (1 : Int) else 0) == n
  | _ => false

/-- Python `str.replace(pat, rep)` on char lists: global, left-to-right,
non-overlapping. -/
def pyReplaceL (pat rep : List Char) : List Char → List Char
  | [] => []
  | c :: cs =>
    if pat ≠ [] ∧ pat.isPrefixOf (c :: cs) then
      rep ++ pyReplaceL pat rep ((c :: cs).drop pat.length)
    else
      c :: pyReplaceL pat rep cs
termination_by l => l.length
decreasing_by
  · rename_i h
    simp only [List.length_drop, List.length_cons]
    have hp : 0 < pat.length := List.length_pos.mpr h.1
    omega
  · simp

/-- Python `s.replace(pat, rep)`. -/
def pyReplace (s pat rep : String) : String :=
  ⟨pyReplaceL pat.data rep.data s.data⟩

/-- One recorded test outcome (`TestResult` dataclass). -/
structure TestResult where
  name : String
  passed : Bool
  message : String
  details : Option Json

/-- One JSON-RPC request issued by `rpc_call` (the `{jsonrpc, id, method,
params}` envelope together with its target URL). -/
structure RpcRequest where
  url : String
  id : Nat
  method : String
  params : List Json

/-- The mutable state of a `NodeAgent` instance: endpoint configuration,
the run-scoped rpc id counter, the accumulated results, and the envelopes
issued so far (in issue order). -/
structure AgentState where
  node_url : String
  faucet_url : Option String
  rpc_id : Nat
  results : List TestResult
  sent : List RpcRequest

/-- Embeds `NodeAgent.__init__`: rewrites `ws://` to `http://` and `wss://` to
`https://` in the node URL (Python `str.replace`, i.e. every occurrence),
stores the faucet URL unmodified, and zeroes the counter and the logs. -/
def initAgent (node_url : String) (faucet_url : Option String) : AgentState :=
  { node_url := pyReplace (pyReplace node_url "ws://" "http://") "wss://" "https://"
    faucet_url := faucet_url
    rpc_id := 0
    results := []
    sent := [] }

/-- Oracle for node responses: rpc id, method and params determine the JSON
value decoded from the node's (or the transport layer's) reply. -/
abbrev Resp := Nat → String → List Json → Json

/-- Oracle for faucet responses: endpoint, HTTP method and payload determine
the decoded reply. -/
abbrev FResp := String → String → Json → Json

/-- Embeds `NodeAgent.rpc_call` composed with `_next_id`: increments the run-scoped
counter, sends the envelope to the configured node URL, and returns the
decoded response. -/
def rpc_call (resp : Resp) (method : String) (params : List Json)
    (s : AgentState) : Json × AgentState :=
  let i := s.rpc_id + 1
  (resp i method params,
   { s with rpc_id := i, sent := s.sent ++ [⟨s.node_url, i, method, params⟩] })

/-- Python truthiness of the optional faucet URL (`not self.faucet_url`). -/
def faucetConfigured (u : Option String) : Bool :=
  match u with
  | none => false
  | some s => s != ""

/-- Embeds `NodeAgent.faucet_call`: a normalized error when no faucet URL is
configured, otherwise the oracle's decoded reply for the endpoint. -/
def faucet_call (fresp : FResp) (endpoint method : String) (data : Json)
    (s : AgentState) : Json :=
  if !faucetConfigured s.faucet_url then
    Json.obj [("error", Json.obj [("message", Json.str "No faucet URL configured")])]
  else
    fresp endpoint method data

/-- Embeds `NodeAgent.record`: append one `TestResult` to the result log. -/
def record (name : String) (passed : Bool) (message : String)
    (details : Option Json) (s : AgentState) : AgentState :=
  { s with results := s.results ++ [⟨name, passed, message, details⟩] }

/-- Embeds `NodeAgent.test_connection`. -/
def test_connection (resp : Resp) (s0 : AgentState) : Option (Bool × AgentState) :=
  let p := rpc_call resp "system_health" [] s0
  let r := p.1
  let s := p.2
  match pyIn r "result" with
  | none => none
  | some true =>
    match pyIndex r "result" with
    | none => none
    | some health =>
      match pyGet health "peers" (Json.num 0), pyGet health "isSyncing" (Json.bool false) with
      | some pe, some sy =>
        some (true, record "RPC Connection" true
          ("Connected - " ++ pyStr pe ++ " peers, syncing=" ++ pyStr sy) (some health) s)
      | _, _ => none
  | some false =>
    match pyGet r "error" (Json.obj []) with
    | none => none
    | some e =>
      match pyGet e "message" (Json.str "Unknown error") with
      | none => none
      | some m =>
        some (false, record "RPC Connection" false ("Failed: " ++ pyStr m) none s)

/-- Embeds `NodeAgent.test_chain_info`. -/
def test_chain_info (resp : Resp) (s0 : AgentState) : Option (Json × AgentState) :=
  let p1 := rpc_call resp "system_chain" [] s0
  match pyGet p1.1 "result" (Json.str "Unknown") with
  | none => none
  | some chain_name =>
  let p2 := rpc_call resp "chain_getHeader" [] p1.2
  let blockStep : Option Int :=
    match pyIn p2.1 "result" with
    | none => none
    | some true =>
      match pyIndex p2.1 "result" with
      | none => none
      | some hd =>
        match pyGet hd "number" (Json.str "0x0") with
        | none => none
        | some numField => pyIntBase16 numField
    | some false => some 0
  match blockStep with
  | none => none
  | some block_number =>
  let p3 := rpc_call resp "state_getRuntimeVersion" [] p2.2
  let rvStep : Option String :=
    match pyIn p3.1 "result" with
    | none => none
    | some true =>
      match pyIndex p3.1 "result" with
      | none => none
      | some rt =>
        match pyGet rt "specVersion" (Json.str "?") with
        | none => none
        | some sv => some ("v" ++ pyStr sv)
    | some false => some "Unknown"
  match rvStep with
  | none => none
  | some runtime_version =>
  let p4 := rpc_call resp "system_name" [] p3.2
  match pyGet p4.1 "result" (Json.str "Unknown") with
  | none => none
  | some node_name =>
  let info := Json.obj [("chain", chain_name), ("block", Json.num block_number),
    ("runtime", Json.str runtime_version), ("node_name", node_name)]
  some (info, record "Chain Info" true
    (pyStr chain_name ++ " @ block #" ++ toString block_number ++ " (" ++ runtime_version ++ ")")
    (some info) p4.2)

/-- Embeds `NodeAgent.test_peers`. -/
def test_peers (resp : Resp) (s0 : AgentState) : Option (Json × AgentState) :=
  let p := rpc_call resp "system_peers" [] s0
  let r := p.1
  let s := p.2
  match pyIn r "result" with
  | none => none
  | some true =>
    match pyIndex r "result" with
    | none => none
    | some peers =>
      match pyLen peers with
      | none => none
      | some peer_count =>
        some (peers, record "Peer Connections" (decide (0 < peer_count))
          (toString peer_count ++ " peers connected")
          (some (Json.obj [("peers", peers)])) s)
  | some false =>
    some (Json.arr [], record "Peer Connections" false "Failed to get peers" none s)

/-- Embeds `NodeAgent.test_faucet_health`. -/
def test_faucet_health (fresp : FResp) (s0 : AgentState) : Option (Bool × AgentState) :=
  if !faucetConfigured s0.faucet_url then
    some (false, record "Faucet Health" false "No faucet URL configured" none s0)
  else
  let r := faucet_call fresp "/health" "GET" Json.null s0
  match pyIn r "error" with
  | none => none
  | some true =>
    match pyIndex r "error" with
    | none => none
    | some e =>
      match pyGet e "message" (Json.str "Unknown error") with
      | none => none
      | some msg =>
        let m := pyStr msg
        if strContains m "502" || strContains m "Bad Gateway" then
          some (false, record "Faucet Health" false
            "502 Bad Gateway - Faucet service is down" none s0)
        else if strContains m "Connection refused" then
          some (false, record "Faucet Health" false
            "Connection refused - Faucet not running" none s0)
        else
          some (false, record "Faucet Health" false ("Error: " ++ m) none s0)
  | some false =>
    match pyGet r "status" Json.null, pyGet r "healthy" Json.null with
    | some st, some hl =>
      if pyEqStr st "ok" || truthy hl then
        some (true, record "Faucet Health" true "Faucet service is healthy" (some r) s0)
      else
        some (true, record "Faucet Health" true ("Faucet responded: " ++ pyStr r) (some r) s0)
    | _, _ => none

/-- Embeds `NodeAgent.test_faucet_drip`. -/
def test_faucet_drip (fresp : FResp) (address : String) (s0 : AgentState) :
    Option (Bool × AgentState) :=
  if !faucetConfigured s0.faucet_url then
    some (false, record "Faucet Drip" false "No faucet URL configured" none s0)
  else
  let r := faucet_call fresp "/drip" "POST" (Json.obj [("address", Json.str address)]) s0
  match pyIn r "error" with
  | none => none
  | some true =>
    match pyIndex r "error" with
    | none => none
    | some e =>
      match pyGet e "message" (Json.str "Unknown") with
      | none => none
      | some m =>
        some (false, record "Faucet Drip" false ("Failed: " ++ pyStr m) none s0)
  | some false =>
    match pyGet r "success" Json.null, pyGet r "hash" Json.null with
    | some su, some ha =>
      if truthy su || truthy ha then
        match pyGet r "hash" (Json.str "pending") with
        | none => none
        | some hv =>
          some (true, record "Faucet Drip" true ("Tokens sent! TX: " ++ pyStr hv) (some r) s0)
      else
        some (false, record "Faucet Drip" false ("Unexpected response: " ++ pyStr r) none s0)
    | _, _ => none

/-- The well-known dev account table (`NodeAgent.DEV_ACCOUNTS`). -/
def DEV_ACCOUNTS : List (String × String) :=
  [("Alice", "5GrwvaEF5zXb26Fz9rcQpDWS57CtERHpNehXCPcNoHGKutQY"),
   ("Bob", "5FHneW46xGXgs5mUiveU4sbTyGBzmstUspZC92UhjJM694ty"),
   ("Charlie", "5FLSigC9HGRKVhB9FiEo4Y3koPsNmBmLJbpXg2mp1hXcS59Y"),
   ("Dave", "5DAAnrj7VHTznn2AWBemMuyBwZWs6FNFjdyVXUeYum3PTXFy"),
   ("Eve", "5HGjWAeFDfFCWPsjFQdVV2Msvz2XtMktvgocEZcCj68kUMaw"),
   ("Ferdie", "5CiPPseXPECbkjWCa6MnjNokrgYjMqmKndv2rSnekmSK2DjL")]

/-- Alice's address, the distinguished funding identity. -/
def ALICE : String := "5GrwvaEF5zXb26Fz9rcQpDWS57CtERHpNehXCPcNoHGKutQY"

/-- The five-member selection pool (Alice excluded). -/
def test_names : List String := ["Bob", "Charlie", "Dave", "Eve", "Ferdie"]

/-- A selected test identity. -/
structure TestAccount where
  name : String
  address : String

/-- The identity picked by `secrets.choice(test_names)` for a given draw
index, with its `DEV_ACCOUNTS` address. -/
def selectAccount (pick : Nat) : TestAccount :=
  let name := test_names.getD (pick % 5) "Bob"
  ⟨name, ((DEV_ACCOUNTS.find? (fun q => q.1 == name)).map (fun q => q.2)).getD ""⟩

/-- Embeds `NodeAgent.generate_test_account`; the `secrets.choice` draw is modelled
by the index `pick` into the five-member pool. -/
def generate_test_account (pick : Nat) (s : AgentState) : TestAccount × AgentState :=
  let account := selectAccount pick
  (account,
   record "Account Selection" true
     ("Using " ++ account.name ++ ": " ++ account.address.take 20 ++ "...")
     (some (Json.obj [("address", Json.str account.address), ("name", Json.str account.name)])) s)

/-- Embeds `NodeAgent.test_account_balance`. -/
def test_account_balance (resp : Resp) (address : String) (s0 : AgentState) :
    Option (Int × AgentState) :=
  let p := rpc_call resp "system_account" [Json.str address] s0
  let r := p.1
  let s := p.2
  let structuredStep : Option (Option Int) :=
    match pyIn r "result" with
    | none => none
    | some true =>
      match pyIndex r "result" with
      | none => none
      | some data =>
        if truthy data then
          match pyIn data "data" with
          | none => none
          | some true =>
            match pyIndex data "data" with
            | none => none
            | some inner =>
              match pyGet inner "free" (Json.num 0) with
              | none => none
              | some fv =>
                match pyInt fv with
                | none => none
                | some free => some (some free)
          | some false => some none
        else some none
    | some false => some none
  match structuredStep with
  | none => none
  | some (some free) =>
    some (free, record "Account Balance" true
      ("Balance: " ++ toString free ++ " units")
      (some (Json.obj [("balance", Json.num free)])) s)
  | some none =>
    some (0, record "Account Balance" true "Balance: 0 (new account)"
      (some (Json.obj [("balance", Json.num 0)])) s)

/-- Embeds `NodeAgent.test_qrng_config`. -/
def test_qrng_config (resp : Resp) (s0 : AgentState) : Option (Json × AgentState) :=
  let p := rpc_call resp "qrng_getConfig" [] s0
  let r := p.1
  let s := p.2
  match pyIn r "result" with
  | none => none
  | some true =>
    match pyIndex r "result" with
    | none => none
    | some config =>
      match pyGet config "threshold_k" (Json.str "?"), pyGet config "total_devices_m" (Json.str "?") with
      | some k, some m =>
        some (config, record "QRNG Config" true
          ("Threshold: " ++ pyStr k ++ "-of-" ++ pyStr m) (some config) s)
      | _, _ => none
  | some false =>
    some (Json.obj [], record "QRNG Config" false "Failed to get config" none s)

/-- Embeds `NodeAgent.test_qrng_device_queues`. -/
def test_qrng_device_queues (resp : Resp) (s0 : AgentState) : Option (Json × AgentState) :=
  let p := rpc_call resp "qrng_getDeviceQueues" [] s0
  let r := p.1
  let s := p.2
  match pyIn r "result" with
  | none => none
  | some true =>
    match pyIndex r "result" with
    | none => none
    | some queues =>
      let queue_count := match queues with | .arr xs => xs.length | _ => 0
      some (queues, record "QRNG Queues" true
        (toString queue_count ++ " device queues") (some queues) s)
  | some false =>
    some (Json.obj [], record "QRNG Queues" false "Failed to get device queues" none s)

/-- Embeds `NodeAgent.test_qrng_reconstruction`. -/
def test_qrng_reconstruction (resp : Resp) (s0 : AgentState) : Option (Json × AgentState) :=
  let p := rpc_call resp "qrng_getReconstructionHistory" [Json.num 10] s0
  let r := p.1
  let s := p.2
  match pyIn r "result" with
  | none => none
  | some true =>
    match pyIndex r "result" with
    | none => none
    | some history =>
      let count := match history with | .arr xs => xs.length | _ => 0
      some (history, record "QRNG History" true
        (toString count ++ " reconstructions")
        (some (Json.obj [("count", Json.num count)])) s)
  | some false =>
    some (Json.arr [], record "QRNG History" false "Failed to get history" none s)

/-- Embeds `NodeAgent.test_notarial_service`. -/
def test_notarial_service (resp : Resp) (s0 : AgentState) : Option (Bool × AgentState) :=
  let p := rpc_call resp "notarial_getAttestationsByOwner" [Json.str ALICE] s0
  let r := p.1
  let s := p.2
  match pyIn r "result" with
  | none => none
  | some true =>
    match pyIndex r "result" with
    | none => none
    | some rv =>
      let attestations := if truthy rv then rv else Json.arr []
      let count := match attestations with | .arr xs => xs.length | _ => 0
      some (true, record "Notarial Service" true
        (toString count ++ " attestations found")
        (some (Json.obj [("count", Json.num count)])) s)
  | some false =>
    match pyIn r "error" with
    | none => none
    | some true =>
      match pyIndex r "error" with
      | none => none
      | some e =>
        match pyGet e "code" Json.null with
        | none => none
        | some code =>
          if pyEqInt code (-32601) then
            some (false, record "Notarial Service" false "Notarial RPC not available" none s)
          else
            some (true, record "Notarial Service" true "Notarial service responding" (some r) s)
    | some false =>
      some (false, record "Notarial Service" false "Unexpected response" none s)

/-- Embeds `NodeAgent.test_governance_stats`. -/
def test_governance_stats (resp : Resp) (s0 : AgentState) : Option (Json × AgentState) :=
  let p := rpc_call resp "quantumharmony_getGovernanceStats" [] s0
  let r := p.1
  let s := p.2
  match pyIn r "result" with
  | none => none
  | some true =>
    match pyIndex r "result" with
    | none => none
    | some stats =>
      some (stats, record "Governance Stats" true "Stats retrieved" (some stats) s)
  | some false =>
    some (Json.obj [], record "Governance Stats" false "Failed to get governance stats" none s)

/-- Embeds `NodeAgent.test_proposals`. -/
def test_proposals (resp : Resp) (s0 : AgentState) : Option (Json × AgentState) :=
  let p := rpc_call resp "quantumharmony_getProposals" [] s0
  let r := p.1
  let s := p.2
  match pyIn r "result" with
  | none => none
  | some true =>
    match pyIndex r "result" with
    | none => none
    | some rv =>
      let proposals := if truthy rv then rv else Json.arr []
      let count := match proposals with | .arr xs => xs.length | _ => 0
      some (proposals, record "Proposals" true
        (toString count ++ " proposals")
        (some (Json.obj [("count", Json.num count)])) s)
  | some false =>
    some (Json.arr [], record "Proposals" false "Failed to get proposals" none s)

/-- Embeds `NodeAgent.test_validator_set`. -/
def test_validator_set (resp : Resp) (s0 : AgentState) : Option (Json × AgentState) :=
  let p := rpc_call resp "quantumharmony_getValidatorSet" [] s0
  let r := p.1
  let s := p.2
  match pyIn r "result" with
  | none => none
  | some true =>
    match pyIndex r "result" with
    | none => none
    | some rv =>
      let validators := if truthy rv then rv else Json.arr []
      let count := match validators with | .arr xs => xs.length | _ => 0
      some (validators, record "Validator Set" true
        (toString count ++ " validators")
        (some (Json.obj [("count", Json.num count)])) s)
  | some false =>
    some (Json.arr [], record "Validator Set" false "Failed to get validator set" none s)

/-- Embeds `NodeAgent.test_rewards_info` (with the default address, Alice). -/
def test_rewards_info (resp : Resp) (s0 : AgentState) : Option (Json × AgentState) :=
  let p := rpc_call resp "quantumharmony_getRewardsInfo" [Json.str ALICE] s0
  let r := p.1
  let s := p.2
  match pyIn r "result" with
  | none => none
  | some true =>
    match pyIndex r "result" with
    | none => none
    | some rewards =>
      match pyGet rewards "pending_rewards" (Json.str "0"), pyGet rewards "reward_multiplier" (Json.str "?") with
      | some pe, some mu =>
        some (rewards, record "Rewards Info" true
          ("Pending: " ++ pyStr pe ++ ", Multiplier: " ++ pyStr mu) (some rewards) s)
      | _, _ => none
  | some false =>
    some (Json.obj [], record "Rewards Info" false "Failed to get rewards info" none s)

/-- Embeds `NodeAgent.test_gateway_balance`. -/
def test_gateway_balance (resp : Resp) (address : String) (s0 : AgentState) :
    Option (Int × AgentState) :=
  let p := rpc_call resp "gateway_balance" [Json.str address] s0
  let r := p.1
  let s := p.2
  match pyIn r "result" with
  | none => none
  | some true =>
    match pyIndex r "result" with
    | none => none
    | some balance =>
      let coerced := match balance with | .num n => n | _ => 0
      some (coerced, record "Gateway Balance" true
        ("Balance: " ++ pyStr balance)
        (some (Json.obj [("balance", balance)])) s)
  | some false =>
    some (0, record "Gateway Balance" false "Failed to get balance" none s)

/-- Embeds `NodeAgent.test_gateway_nonce`. -/
def test_gateway_nonce (resp : Resp) (address : String) (s0 : AgentState) :
    Option (Int × AgentState) :=
  let p := rpc_call resp "gateway_nonce" [Json.str address] s0
  let r := p.1
  let s := p.2
  match pyIn r "result" with
  | none => none
  | some true =>
    match pyIndex r "result" with
    | none => none
    | some nonce =>
      let coerced := match nonce with | .num n => n | _ => 0
      some (coerced, record "Gateway Nonce" true
        ("Nonce: " ++ pyStr nonce)
        (some (Json.obj [("nonce", nonce)])) s)
  | some false =>
    some (0, record "Gateway Nonce" false "Failed to get nonce" none s)

/-- Embeds `NodeAgent.run_health_check`: connectivity, then chain info, peers,
faucet health, QRNG config, notarial, governance stats and validator set;
aborts the whole run right after a failed connectivity probe. -/
def run_health_check (resp : Resp) (fresp : FResp) (s0 : AgentState) :
    Option AgentState :=
  match test_connection resp s0 with
  | none => none
  | some (conn, s1) =>
  if !conn then some s1 else
  match test_chain_info resp s1 with
  | none => none
  | some (_, s2) =>
  match test_peers resp s2 with
  | none => none
  | some (_, s3) =>
  match test_faucet_health fresp s3 with
  | none => none
  | some (_, s4) =>
  match test_qrng_config resp s4 with
  | none => none
  | some (_, s5) =>
  match test_notarial_service resp s5 with
  | none => none
  | some (_, s6) =>
  match test_governance_stats resp s6 with
  | none => none
  | some (_, s7) =>
  match test_validator_set resp s7 with
  | none => none
  | some (_, s8) => some s8

/-- The tail of `NodeAgent.run_full_test` after the faucet-gated block:
gateway, QRNG, notarial, governance and rewards probes, in source order. -/
def run_full_tail (resp : Resp) (s9 : AgentState) : Option AgentState :=
  match test_gateway_balance resp ALICE s9 with
  | none => none
  | some (_, s10) =>
  match test_gateway_nonce resp ALICE s10 with
  | none => none
  | some (_, s11) =>
  match test_qrng_config resp s11 with
  | none => none
  | some (_, s12) =>
  match test_qrng_device_queues resp s12 with
  | none => none
  | some (_, s13) =>
  match test_qrng_reconstruction resp s13 with
  | none => none
  | some (_, s14) =>
  match test_notarial_service resp s14 with
  | none => none
  | some (_, s15) =>
  match test_governance_stats resp s15 with
  | none => none
  | some (_, s16) =>
  match test_proposals resp s16 with
  | none => none
  | some (_, s17) =>
  match test_validator_set resp s17 with
  | none => none
  | some (_, s18) =>
  match test_rewards_info resp s18 with
  | none => none
  | some (_, s19) => some s19

/-- Embeds `NodeAgent.run_full_test`: the full pipeline, with the drip and the
balance re-check gated on the faucet-health flag (the `time.sleep(2)`
between them has no observable effect on the modelled state). -/
def run_full_test (resp : Resp) (fresp : FResp) (pick : Nat) (s0 : AgentState) :
    Option AgentState :=
  match test_connection resp s0 with
  | none => none
  | some (conn, s1) =>
  if !conn then some s1 else
  match test_chain_info resp s1 with
  | none => none
  | some (_, s2) =>
  match test_peers resp s2 with
  | none => none
  | some (_, s3) =>
  match test_faucet_health fresp s3 with
  | none => none
  | some (faucet_healthy, s4) =>
  let q := generate_test_account pick s4
  match test_account_balance resp q.1.address q.2 with
  | none => none
  | some (_, s6) =>
  match (if faucet_healthy then
          match test_faucet_drip fresp q.1.address s6 with
          | none => none
          | some (_, s7) =>
            match test_account_balance resp q.1.address s7 with
            | none => none
            | some (_, s8) => some s8
        else some s6) with
  | none => none
  | some s9 => run_full_tail resp s9

/-- Status cell of the reporter's service table. -/
inductive ServiceStatus where
  | online : ServiceStatus
  | offline : ServiceStatus
  | unknown : ServiceStatus
deriving DecidableEq

/-- The fixed category table of `print_summary`: the six canonical probe
names with their display labels, in source order. -/
def services : List (String × String) :=
  [("RPC Connection", "RPC"),
   ("Faucet Health", "Faucet"),
   ("QRNG Config", "QRNG"),
   ("Notarial Service", "Notarial"),
   ("Governance Stats", "Governance"),
   ("Validator Set", "Validators")]

/-- The status cell computed by `print_summary` for one canonical probe
name: `next((r for r in self.results if r.name == test_name), None)`,
i.e. the first entry with that name; ONLINE/OFFLINE by its `passed` flag,
UNKNOWN when no entry carries the name. -/
def tableStatus (results : List TestResult) (test_name : String) : ServiceStatus :=
  match results.find? (fun r => r.name == test_name) with
  | some r => if r.passed then .online else .offline
  | none => .unknown

/-- Follows the spec's words, for comparison with `tableStatus`: name-based
lookup where the most-recently-recorded match wins. -/
def tableStatusSpec (results : List TestResult) (test_name : String) : ServiceStatus :=
  match results.reverse.find? (fun r => r.name == test_name) with
  | some r => if r.passed then .online else .offline
  | none => .unknown

/-- The whole service table rendered by `print_summary`. -/
def serviceTable (results : List TestResult) : List (String × ServiceStatus) :=
  services.map (fun p => (p.2, tableStatus results p.1))

/-- The pass/fail counts printed by `print_summary`. -/
def summaryCounts (results : List TestResult) : Nat × Nat :=
  (results.countP (fun r => r.passed), results.countP (fun r => !r.passed))

/-- Issue a sequence of JSON-RPC calls (method/params pairs) through
`rpc_call`, threading the agent state. -/
def issueCalls (resp : Resp) (calls : List (String × List Json))
    (s : AgentState) : AgentState :=
  match calls with
  | [] => s
  | (m, ps) :: rest => issueCalls resp rest (rpc_call resp m ps s).2

/-- The envelope ids issued so far, in issue order. -/
def sentIds (s : AgentState) : List Nat :=
  s.sent.map (fun q => q.id)

/-- Projection of an issued request to its method and params. -/
def reqView (q : RpcRequest) : String × List Json :=
  (q.method, q.params)

/-! ## The Crypto4A QRNG simulator (`server.py`) -/

/-- The simulator's request/byte counters. -/
structure SimStats where
  requests : Nat
  bytes_generated : Nat

/-- The clamping applied to the `length` query parameter in `get_random`
and `get_random_hex`. -/
def clampLength (n : Int) : Int :=
  if n < 1 then 1 else if n > 1024 then 1024 else n

/-- Embeds `secrets.token_bytes(k)`: `k` bytes, each in `[0, 255]`, drawn from an
entropy source modelled as a stream. -/
def token_bytes (entropy : Nat → Nat) (k : Nat) : List Nat :=
  (List.range k).map (fun i => entropy i % 256)

/-- Embeds `GET /v1/random` (`get_random` in `server.py`): clamp the requested
length to `[1, 1024]` (default 32; `none` models an absent or non-integer
query parameter, which Flask replaces by the default), generate that many
random bytes, bump the statistics, and return the JSON body. -/
def get_random (entropy : Nat → Nat) (now_ms : Int) (lengthParam : Option Int)
    (stats : SimStats) : Json × SimStats :=
  let length := clampLength (lengthParam.getD 32)
  let random_bytes := token_bytes entropy length.toNat
  (Json.obj [("random_bytes", Json.arr (random_bytes.map fun (b : Nat) => Json.num (b : Int))),
             ("length", Json.num length),
             ("source", Json.str "crypto4a-simulator"),
             ("timestamp", Json.num now_ms),
             ("entropy_quality", Json.str "simulated")],
   { requests := stats.requests + 1
     bytes_generated := stats.bytes_generated + length.toNat })

/-! ## Shape lemmas: each probe appends exactly one result entry -/

theorem record_results (n : String) (p : Bool) (m : String) (d : Option Json)
    (s : AgentState) :
    (record n p m d s).results = s.results ++ [⟨n, p, m, d⟩] := rfl

theorem test_connection_shape {resp : Resp} {s : AgentState} {b : Bool} {s' : AgentState}
    (h : test_connection resp s = some (b, s')) :
    (∃ m d, s'.results = s.results ++ [⟨"RPC Connection", b, m, d⟩]) ∧
    s'.sent.map reqView = s.sent.map reqView ++ [("system_health", [])] := by
  simp only [test_connection] at h
  repeat' split at h
  any_goals exact Option.noConfusion h
  all_goals
    simp only [Option.some.injEq, Prod.mk.injEq] at h
    obtain ⟨hb, hs⟩ := h
    subst hb
    subst hs
    exact ⟨⟨_, _, rfl⟩, by simp [record, rpc_call, reqView]⟩

theorem test_chain_info_shape {resp : Resp} {s : AgentState} {v : Json} {s' : AgentState}
    (h : test_chain_info resp s = some (v, s')) :
    (∃ m d, s'.results = s.results ++ [⟨"Chain Info", true, m, d⟩]) ∧
    s'.sent.map reqView = s.sent.map reqView ++
      [("system_chain", []), ("chain_getHeader", []),
       ("state_getRuntimeVersion", []), ("system_name", [])] := by
  simp only [test_chain_info] at h
  repeat' split at h
  any_goals exact Option.noConfusion h
  all_goals
    simp only [Option.some.injEq, Prod.mk.injEq] at h
    obtain ⟨hb, hs⟩ := h
    subst hs
    exact ⟨⟨_, _, rfl⟩, by simp [record, rpc_call, reqView]⟩

theorem test_peers_shape {resp : Resp} {s : AgentState} {v : Json} {s' : AgentState}
    (h : test_peers resp s = some (v, s')) :
    (∃ b m d, s'.results = s.results ++ [⟨"Peer Connections", b, m, d⟩]) ∧
    s'.sent.map reqView = s.sent.map reqView ++ [("system_peers", [])] := by
  simp only [test_peers] at h
  repeat' split at h
  any_goals exact Option.noConfusion h
  all_goals
    simp only [Option.some.injEq, Prod.mk.injEq] at h
    obtain ⟨hb, hs⟩ := h
    subst hs
    exact ⟨⟨_, _, _, rfl⟩, by simp [record, rpc_call, reqView]⟩

theorem test_faucet_health_shape {fresp : FResp} {s : AgentState} {b : Bool} {s' : AgentState}
    (h : test_faucet_health fresp s = some (b, s')) :
    (∃ m d, s'.results = s.results ++ [⟨"Faucet Health", b, m, d⟩]) ∧
    s'.sent = s.sent := by
  simp only [test_faucet_health] at h
  repeat' split at h
  any_goals exact Option.noConfusion h
  all_goals
    simp only [Option.some.injEq, Prod.mk.injEq] at h
    obtain ⟨hb, hs⟩ := h
    subst hb
    subst hs
    exact ⟨⟨_, _, rfl⟩, rfl⟩

theorem test_faucet_drip_shape {fresp : FResp} {a : String} {s : AgentState} {b : Bool}
    {s' : AgentState} (h : test_faucet_drip fresp a s = some (b, s')) :
    (∃ m d, s'.results = s.results ++ [⟨"Faucet Drip", b, m, d⟩]) ∧
    s'.sent = s.sent := by
  simp only [test_faucet_drip] at h
  repeat' split at h
  any_goals exact Option.noConfusion h
  all_goals
    simp only [Option.some.injEq, Prod.mk.injEq] at h
    obtain ⟨hb, hs⟩ := h
    subst hb
    subst hs
    exact ⟨⟨_, _, rfl⟩, rfl⟩

theorem generate_test_account_shape (pick : Nat) (s : AgentState) :
    (∃ m d, (generate_test_account pick s).2.results =
        s.results ++ [⟨"Account Selection", true, m, d⟩]) ∧
    (generate_test_account pick s).2.sent = s.sent :=
  ⟨⟨_, _, rfl⟩, rfl⟩

theorem test_account_balance_shape {resp : Resp} {a : String} {s : AgentState} {v : Int}
    {s' : AgentState} (h : test_account_balance resp a s = some (v, s')) :
    (∃ m d, s'.results = s.results ++ [⟨"Account Balance", true, m, d⟩]) ∧
    s'.sent.map reqView = s.sent.map reqView ++ [("system_account", [Json.str a])] := by
  simp only [test_account_balance] at h
  repeat' split at h
  any_goals exact Option.noConfusion h
  all_goals
    simp only [Option.some.injEq, Prod.mk.injEq] at h
    obtain ⟨hb, hs⟩ := h
    subst hs
    exact ⟨⟨_, _, rfl⟩, by simp [record, rpc_call, reqView]⟩

theorem test_qrng_config_shape {resp : Resp} {s : AgentState} {v : Json} {s' : AgentState}
    (h : test_qrng_config resp s = some (v, s')) :
    (∃ b m d, s'.results = s.results ++ [⟨"QRNG Config", b, m, d⟩]) ∧
    s'.sent.map reqView = s.sent.map reqView ++ [("qrng_getConfig", [])] := by
  simp only [test_qrng_config] at h
  repeat' split at h
  any_goals exact Option.noConfusion h
  all_goals
    simp only [Option.some.injEq, Prod.mk.injEq] at h
    obtain ⟨hb, hs⟩ := h
    subst hs
    exact ⟨⟨_, _, _, rfl⟩, by simp [record, rpc_call, reqView]⟩

theorem test_qrng_device_queues_shape {resp : Resp} {s : AgentState} {v : Json}
    {s' : AgentState} (h : test_qrng_device_queues resp s = some (v, s')) :
    (∃ b m d, s'.results = s.results ++ [⟨"QRNG Queues", b, m, d⟩]) ∧
    s'.sent.map reqView = s.sent.map reqView ++ [("qrng_getDeviceQueues", [])] := by
  simp only [test_qrng_device_queues] at h
  repeat' split at h
  any_goals exact Option.noConfusion h
  all_goals
    simp only [Option.some.injEq, Prod.mk.injEq] at h
    obtain ⟨hb, hs⟩ := h
    subst hs
    exact ⟨⟨_, _, _, rfl⟩, by simp [record, rpc_call, reqView]⟩

theorem test_qrng_reconstruction_shape {resp : Resp} {s : AgentState} {v : Json}
    {s' : AgentState} (h : test_qrng_reconstruction resp s = some (v, s')) :
    (∃ b m d, s'.results = s.results ++ [⟨"QRNG History", b, m, d⟩]) ∧
    s'.sent.map reqView = s.sent.map reqView ++
      [("qrng_getReconstructionHistory", [Json.num 10])] := by
  simp only [test_qrng_reconstruction] at h
  repeat' split at h
  any_goals exact Option.noConfusion h
  all_goals
    simp only [Option.some.injEq, Prod.mk.injEq] at h
    obtain ⟨hb, hs⟩ := h
    subst hs
    exact ⟨⟨_, _, _, rfl⟩, by simp [record, rpc_call, reqView]⟩

theorem test_notarial_service_shape {resp : Resp} {s : AgentState} {b : Bool}
    {s' : AgentState} (h : test_notarial_service resp s = some (b, s')) :
    (∃ m d, s'.results = s.results ++ [⟨"Notarial Service", b, m, d⟩]) ∧
    s'.sent.map reqView = s.sent.map reqView ++
      [("notarial_getAttestationsByOwner", [Json.str ALICE])] := by
  simp only [test_notarial_service] at h
  repeat' split at h
  any_goals exact Option.noConfusion h
  all_goals
    simp only [Option.some.injEq, Prod.mk.injEq] at h
    obtain ⟨hb, hs⟩ := h
    subst hb
    subst hs
    exact ⟨⟨_, _, rfl⟩, by simp [record, rpc_call, reqView]⟩

theorem test_governance_stats_shape {resp : Resp} {s : AgentState} {v : Json}
    {s' : AgentState} (h : test_governance_stats resp s = some (v, s')) :
    (∃ b m d, s'.results = s.results ++ [⟨"Governance Stats", b, m, d⟩]) ∧
    s'.sent.map reqView = s.sent.map reqView ++
      [("quantumharmony_getGovernanceStats", [])] := by
  simp only [test_governance_stats] at h
  repeat' split at h
  any_goals exact Option.noConfusion h
  all_goals
    simp only [Option.some.injEq, Prod.mk.injEq] at h
    obtain ⟨hb, hs⟩ := h
    subst hs
    exact ⟨⟨_, _, _, rfl⟩, by simp [record, rpc_call, reqView]⟩

theorem test_proposals_shape {resp : Resp} {s : AgentState} {v : Json} {s' : AgentState}
    (h : test_proposals resp s = some (v, s')) :
    (∃ b m d, s'.results = s.results ++ [⟨"Proposals", b, m, d⟩]) ∧
    s'.sent.map reqView = s.sent.map reqView ++ [("quantumharmony_getProposals", [])] := by
  simp only [test_proposals] at h
  repeat' split at h
  any_goals exact Option.noConfusion h
  all_goals
    simp only [Option.some.injEq, Prod.mk.injEq] at h
    obtain ⟨hb, hs⟩ := h
    subst hs
    exact ⟨⟨_, _, _, rfl⟩, by simp [record, rpc_call, reqView]⟩

theorem test_validator_set_shape {resp : Resp} {s : AgentState} {v : Json} {s' : AgentState}
    (h : test_validator_set resp s = some (v, s')) :
    (∃ b m d, s'.results = s.results ++ [⟨"Validator Set", b, m, d⟩]) ∧
    s'.sent.map reqView = s.sent.map reqView ++ [("quantumharmony_getValidatorSet", [])] := by
  simp only [test_validator_set] at h
  repeat' split at h
  any_goals exact Option.noConfusion h
  all_goals
    simp only [Option.some.injEq, Prod.mk.injEq] at h
    obtain ⟨hb, hs⟩ := h
    subst hs
    exact ⟨⟨_, _, _, rfl⟩, by simp [record, rpc_call, reqView]⟩

theorem test_rewards_info_shape {resp : Resp} {s : AgentState} {v : Json} {s' : AgentState}
    (h : test_rewards_info resp s = some (v, s')) :
    (∃ b m d, s'.results = s.results ++ [⟨"Rewards Info", b, m, d⟩]) ∧
    s'.sent.map reqView = s.sent.map reqView ++
      [("quantumharmony_getRewardsInfo", [Json.str ALICE])] := by
  simp only [test_rewards_info] at h
  repeat' split at h
  any_goals exact Option.noConfusion h
  all_goals
    simp only [Option.some.injEq, Prod.mk.injEq] at h
    obtain ⟨hb, hs⟩ := h
    subst hs
    exact ⟨⟨_, _, _, rfl⟩, by simp [record, rpc_call, reqView]⟩

theorem test_gateway_balance_shape {resp : Resp} {a : String} {s : AgentState} {v : Int}
    {s' : AgentState} (h : test_gateway_balance resp a s = some (v, s')) :
    (∃ b m d, s'.results = s.results ++ [⟨"Gateway Balance", b, m, d⟩]) ∧
    s'.sent.map reqView = s.sent.map reqView ++ [("gateway_balance", [Json.str a])] := by
  simp only [test_gateway_balance] at h
  repeat' split at h
  any_goals exact Option.noConfusion h
  all_goals
    simp only [Option.some.injEq, Prod.mk.injEq] at h
    obtain ⟨hb, hs⟩ := h
    subst hs
    exact ⟨⟨_, _, _, rfl⟩, by simp [record, rpc_call, reqView]⟩

theorem test_gateway_nonce_shape {resp : Resp} {a : String} {s : AgentState} {v : Int}
    {s' : AgentState} (h : test_gateway_nonce resp a s = some (v, s')) :
    (∃ b m d, s'.results = s.results ++ [⟨"Gateway Nonce", b, m, d⟩]) ∧
    s'.sent.map reqView = s.sent.map reqView ++ [("gateway_nonce", [Json.str a])] := by
  simp only [test_gateway_nonce] at h
  repeat' split at h
  any_goals exact Option.noConfusion h
  all_goals
    simp only [Option.some.injEq, Prod.mk.injEq] at h
    obtain ⟨hb, hs⟩ := h
    subst hs
    exact ⟨⟨_, _, _, rfl⟩, by simp [record, rpc_call, reqView]⟩

/-! ## Claim C1: the reporter's category table -/

/-- Generic `find?` over a split list whose prefix has no match. -/
theorem find?_first {α : Type} {p : α → Bool} (l1 : List α) (r : α) (l2 : List α)
    (hp : p r = true) (h1 : ∀ q ∈ l1, p q = false) :
    (l1 ++ r :: l2).find? p = some r := by
  induction l1 with
  | nil => simp [List.find?_cons, hp]
  | cons a t ih =>
    have ha : p a = false := h1 a (by simp)
    simp only [List.cons_append, List.find?_cons, ha]
    exact ih (fun q hq => h1 q (by simp [hq]))

/-- C1 fails on the code: `print_summary` resolves a duplicated canonical
name to the FIRST recorded entry, not the most recent one.  On a log whose
first "RPC Connection" entry failed and whose most recent one passed, the
code's table shows OFFLINE while the claimed most-recent rule yields
ONLINE. -/
theorem claim_C1_counterexample :
    tableStatus
      [⟨"RPC Connection", false, "Failed: boom", none⟩,
       ⟨"RPC Connection", true, "Connected - 3 peers, syncing=False", none⟩]
      "RPC Connection" = ServiceStatus.offline ∧
    tableStatusSpec
      [⟨"RPC Connection", false, "Failed: boom", none⟩,
       ⟨"RPC Connection", true, "Connected - 3 peers, syncing=False", none⟩]
      "RPC Connection" = ServiceStatus.online := by
  constructor <;> rfl

/-- C1 (amended): the category table resolves each of the six canonical
probe names to the EARLIEST-recorded entry with that name when duplicates
occur: UNKNOWN exactly when no entry carries the name, and for the first
matching entry the row shows ONLINE if it passed and OFFLINE if it
failed; the six canonical names are the ones of the `services` table. -/
theorem claim_C1 (log : List TestResult) (name : String) :
    (tableStatus log name = ServiceStatus.unknown ↔ ∀ r ∈ log, r.name ≠ name) ∧
    (∀ l1 r l2, log = l1 ++ r :: l2 → r.name = name → (∀ q ∈ l1, q.name ≠ name) →
      tableStatus log name =
        if r.passed then ServiceStatus.online else ServiceStatus.offline) ∧
    services.map (fun p => p.1) =
      ["RPC Connection", "Faucet Health", "QRNG Config", "Notarial Service",
       "Governance Stats", "Validator Set"] := by
  refine ⟨⟨?_, ?_⟩, ?_, rfl⟩
  · intro ht r hr hname
    unfold tableStatus at ht
    cases hf : log.find? (fun x => x.name == name) with
    | none =>
      rw [List.find?_eq_none] at hf
      have := hf r hr
      simp [hname] at this
    | some q =>
      rw [hf] at ht
      by_cases hq : q.passed <;> simp [hq] at ht
  · intro hnone
    unfold tableStatus
    have hf : log.find? (fun x => x.name == name) = none := by
      rw [List.find?_eq_none]
      intro x hx
      simp [hnone x hx]
    rw [hf]
  · intro l1 r l2 heq hr h1
    subst heq
    unfold tableStatus
    rw [find?_first l1 r l2 (by simp [hr]) (fun q hq => beq_eq_false_iff_ne.mpr (h1 q hq))]

/-- Witness for C1 on a concrete one-entry log. -/
theorem claim_C1_witness :
    tableStatus [⟨"RPC Connection", true, "Connected", none⟩] "RPC Connection" =
      ServiceStatus.online ∧
    tableStatus [⟨"RPC Connection", true, "Connected", none⟩] "Faucet Health" =
      ServiceStatus.unknown := by
  constructor
  · have := (claim_C1 [⟨"RPC Connection", true, "Connected", none⟩] "RPC Connection").2.1
      [] ⟨"RPC Connection", true, "Connected", none⟩ [] rfl rfl
      (fun q hq => absurd hq (List.not_mem_nil q))
    simpa using this
  · exact (claim_C1 [⟨"RPC Connection", true, "Connected", none⟩] "Faucet Health").1.mpr
      (fun r hr => by
        simp only [List.mem_singleton] at hr
        subst hr
        decide)

/-! ## Claim C2: exception safety of the probe boundary -/

/-- C2 fails on the code: a response the transport layer can legitimately
return, `{"result": null}`, makes `test_connection` evaluate
`None.get("peers", 0)` and `test_chain_info` evaluate
`None.get("number", "0x0")`, so an `AttributeError` escapes both probe
boundaries (`none` here) and no `ProbeResult` is recorded at all. -/
theorem claim_C2 :
    test_connection (fun _ _ _ => Json.obj [("result", Json.null)])
      (initAgent "http://localhost:9944" none) = none ∧
    test_chain_info (fun _ _ _ => Json.obj [("result", Json.null)])
      (initAgent "http://localhost:9944" none) = none := by
  constructor <;> rfl

/-! ## Claim C5: envelope ids are unique and strictly increasing -/

/-- Issuing a sequence of calls appends exactly the ids
`s.rpc_id + 1, …, s.rpc_id + N` to the issue log. -/
theorem sentIds_issueCalls (resp : Resp) (calls : List (String × List Json)) :
    ∀ s : AgentState, sentIds (issueCalls resp calls s) =
      sentIds s ++ (List.range calls.length).map (fun i => s.rpc_id + 1 + i) := by
  induction calls with
  | nil => intro s; simp [issueCalls, sentIds]
  | cons c rest ih =>
    intro s
    obtain ⟨m, ps⟩ := c
    show sentIds (issueCalls resp rest (rpc_call resp m ps s).2) = _
    rw [ih]
    have hsent : sentIds (rpc_call resp m ps s).2 = sentIds s ++ [s.rpc_id + 1] := by
      simp [sentIds, rpc_call]
    have hid : (rpc_call resp m ps s).2.rpc_id = s.rpc_id + 1 := rfl
    have hr : (List.range (rest.length + 1)).map (fun i => s.rpc_id + 1 + i) =
        (s.rpc_id + 1) :: (List.range rest.length).map (fun i => s.rpc_id + 1 + 1 + i) := by
      rw [List.range_succ_eq_map]
      simp only [List.map_cons, List.map_map]
      exact List.cons_eq_cons.mpr ⟨by omega,
        List.map_congr_left (fun a _ => by
          simp only [Function.comp_apply]
          omega)⟩
    rw [hsent, hid, List.length_cons, hr]
    simp [List.append_assoc]

/-- C5: within one run, the ids of the N issued JSON-RPC envelopes are
exactly `1, …, N` in issue order, hence pairwise distinct, strictly
increasing, and of set-cardinality N. -/
theorem claim_C5 (resp : Resp) (node_url : String) (faucet_url : Option String)
    (calls : List (String × List Json)) :
    sentIds (issueCalls resp calls (initAgent node_url faucet_url)) =
      (List.range calls.length).map (fun i => i + 1) ∧
    (sentIds (issueCalls resp calls (initAgent node_url faucet_url))).Pairwise (· < ·) ∧
    (sentIds (issueCalls resp calls (initAgent node_url faucet_url))).Nodup ∧
    (sentIds (issueCalls resp calls (initAgent node_url faucet_url))).length = calls.length ∧
    (sentIds (issueCalls resp calls (initAgent node_url faucet_url))).toFinset.card =
      calls.length := by
  have h1 : sentIds (issueCalls resp calls (initAgent node_url faucet_url)) =
      (List.range calls.length).map (fun i => i + 1) := by
    rw [sentIds_issueCalls]
    show ([] : List Nat) ++ _ = _
    rw [List.nil_append]
    exact List.map_congr_left (fun a _ => by show 0 + 1 + a = a + 1; omega)
  have hpw : (sentIds (issueCalls resp calls (initAgent node_url faucet_url))).Pairwise (· < ·) := by
    rw [h1]
    exact List.Pairwise.map _ (fun a b hab => by omega) (List.pairwise_lt_range _)
  have hnd : (sentIds (issueCalls resp calls (initAgent node_url faucet_url))).Nodup :=
    hpw.imp (fun hab => Nat.ne_of_lt hab)
  refine ⟨h1, hpw, hnd, by rw [h1]; simp, ?_⟩
  rw [List.toFinset_card_of_nodup hnd, h1]
  simp

/-! ## Claim C9: the simulator's /v1/random endpoint -/

/-- C9 fails on the code as stated: the body returned by `get_random`
carries its millisecond timestamp under the key `timestamp`, and no
`timestamp_ms` key exists. -/
theorem claim_C9_counterexample :
    pyIn (get_random (fun _ => 0) 0 (some 32) ⟨0, 0⟩).1 "timestamp_ms" = some false ∧
    pyIn (get_random (fun _ => 0) 0 (some 32) ⟨0, 0⟩).1 "timestamp" = some true := by
  constructor <;> rfl

/-- C9 (amended): `GET /v1/random` clamps the requested length to
`[1, 1024]` (default 32 when absent), returns a body whose `length` field
is the clamped value and whose `random_bytes` field is a list of exactly
that many integers, each in `[0, 255]`, together with `source`,
`timestamp` (not `timestamp_ms`) and `entropy_quality` fields. -/
theorem claim_C9 (entropy : Nat → Nat) (now_ms : Int) (lengthParam : Option Int)
    (stats : SimStats) (c : Int) (hc : c = clampLength (lengthParam.getD 32)) :
    pyIndex (get_random entropy now_ms lengthParam stats).1 "length" = some (Json.num c) ∧
    1 ≤ c ∧ c ≤ 1024 ∧
    (lengthParam = none → c = 32) ∧
    (∀ N : Int, lengthParam = some N → 1 ≤ N → N ≤ 1024 → c = N) ∧
    (∃ bs : List Json,
       pyIndex (get_random entropy now_ms lengthParam stats).1 "random_bytes" =
         some (Json.arr bs) ∧
       bs.length = c.toNat ∧
       ∀ b ∈ bs, ∃ k : Nat, b = Json.num (k : Int) ∧ k ≤ 255) ∧
    pyIn (get_random entropy now_ms lengthParam stats).1 "source" = some true ∧
    pyIn (get_random entropy now_ms lengthParam stats).1 "timestamp" = some true ∧
    pyIn (get_random entropy now_ms lengthParam stats).1 "entropy_quality" = some true := by
  subst hc
  refine ⟨rfl, ?_, ?_, ?_, ?_, ?_, rfl, rfl, rfl⟩
  · unfold clampLength; split <;> [omega; (split <;> omega)]
  · unfold clampLength; split <;> [omega; (split <;> omega)]
  · intro h; subst h; rfl
  · intro N hN h1 h2
    rw [hN]
    show clampLength N = N
    unfold clampLength
    rw [if_neg (by omega), if_neg (by omega)]
  · refine ⟨(token_bytes entropy (clampLength (lengthParam.getD 32)).toNat).map
      (fun (a : Nat) => Json.num (a : Int)), by rfl,
      by rw [List.length_map, token_bytes, List.length_map, List.length_range], ?_⟩
    intro b hb
    rw [List.mem_map] at hb
    obtain ⟨a, ha, hbe⟩ := hb
    refine ⟨a, hbe.symm, ?_⟩
    rw [token_bytes, List.mem_map] at ha
    obtain ⟨i, _, hai⟩ := ha
    have hlt := Nat.mod_lt (entropy i) (show 0 < 256 by omega)
    omega

/-- Witness for C9 at a concrete request. -/
theorem claim_C9_witness :
    pyIndex (get_random (fun i => i) 1700000000000 (some 3) ⟨0, 0⟩).1 "length" =
      some (Json.num 3) ∧
    pyIn (get_random (fun i => i) 1700000000000 (some 3) ⟨0, 0⟩).1 "timestamp" = some true :=
  ⟨(claim_C9 (fun i => i) 1700000000000 (some 3) ⟨0, 0⟩ 3 (by rfl)).1,
   (claim_C9 (fun i => i) 1700000000000 (some 3) ⟨0, 0⟩ 3 (by rfl)).2.2.2.2.2.2.2.1⟩

/-! ## Claim C10: URL normalization in the constructor -/

theorem pyReplaceL_nil (pat rep : List Char) : pyReplaceL pat rep [] = [] := by
  simp [pyReplaceL]

theorem pyReplaceL_cons (pat rep : List Char) (c : Char) (cs : List Char) :
    pyReplaceL pat rep (c :: cs) =
      if pat ≠ [] ∧ pat.isPrefixOf (c :: cs) then
        rep ++ pyReplaceL pat rep ((c :: cs).drop pat.length)
      else c :: pyReplaceL pat rep cs := by
  simp only [pyReplaceL]

theorem pyReplaceL_cons_no (pat rep : List Char) (c : Char) (l : List Char)
    (hno : pat.isPrefixOf (c :: l) = false) :
    pyReplaceL pat rep (c :: l) = c :: pyReplaceL pat rep l := by
  rw [pyReplaceL_cons, if_neg]
  intro hcon
  rw [hno] at hcon
  exact Bool.noConfusion hcon.2

theorem pyReplaceL_cons_yes (pat rep : List Char) (c : Char) (l : List Char)
    (hp : pat ≠ []) (hpre : pat.isPrefixOf (c :: l) = true) :
    pyReplaceL pat rep (c :: l) = rep ++ pyReplaceL pat rep ((c :: l).drop pat.length) := by
  rw [pyReplaceL_cons, if_pos ⟨hp, hpre⟩]

theorem isPrefixOf_nil_left (l : List Char) : List.isPrefixOf ([] : List Char) l = true := by
  cases l <;> rfl

/-- A pattern starting with a character that never occurs in the string
never matches, so the replacement is the identity there. -/
theorem pyReplaceL_no_char (p' rep : List Char) (w : Char) :
    ∀ l : List Char, (∀ c ∈ l, c ≠ w) → pyReplaceL (w :: p') rep l = l := by
  intro l
  induction l with
  | nil => exact fun _ => pyReplaceL_nil _ _
  | cons c cs ih =>
    intro h
    have hbeq : (w == c) = false :=
      beq_eq_false_iff_ne.mpr (fun he => (h c (List.mem_cons_self _ _)) he.symm)
    have hno : (w :: p').isPrefixOf (c :: cs) = false := by
      show ((w == c) && p'.isPrefixOf cs) = false
      rw [hbeq, Bool.false_and]
    rw [pyReplaceL_cons_no (w :: p') rep c cs hno,
        ih (fun x hx => h x (List.mem_cons_of_mem _ hx))]

/-- C10: the constructor rewrites a `ws://` prefix of the node URL to
`http://` and a `wss://` prefix to `https://` (the remainder untouched
whenever the replacements do not fire inside it), stores the faucet URL
unmodified, and `rpc_call` targets the stored `node_url` on every issued
envelope. -/
theorem claim_C10 (rest : String) (furl : Option String)
    (h1 : pyReplace rest "ws://" "http://" = rest)
    (h2 : pyReplace rest "wss://" "https://" = rest) :
    (initAgent ("ws://" ++ rest) furl).node_url = "http://" ++ rest ∧
    (initAgent ("wss://" ++ rest) furl).node_url = "https://" ++ rest ∧
    (∀ url : String, (initAgent url furl).faucet_url = furl) ∧
    (∀ (resp : Resp) (m : String) (ps : List Json) (s : AgentState),
      (rpc_call resp m ps s).2.sent = s.sent ++ [⟨s.node_url, s.rpc_id + 1, m, ps⟩]) := by
  have h1' : pyReplaceL "ws://".data "http://".data rest.data = rest.data :=
    congrArg String.data h1
  have h2' : pyReplaceL "wss://".data "https://".data rest.data = rest.data :=
    congrArg String.data h2
  refine ⟨?_, ?_, fun url => rfl, fun resp m ps s => rfl⟩
  · have stepA : pyReplaceL "ws://".data "http://".data
        ('w' :: 's' :: ':' :: '/' :: '/' :: rest.data) = "http://".data ++ rest.data := by
      rw [pyReplaceL_cons_yes "ws://".data "http://".data 'w'
            ('s' :: ':' :: '/' :: '/' :: rest.data) (by simp) (isPrefixOf_nil_left rest.data)]
      show "http://".data ++ pyReplaceL "ws://".data "http://".data rest.data = _
      rw [h1']
    have stepB : pyReplaceL "wss://".data "https://".data
        ('h' :: 't' :: 't' :: 'p' :: ':' :: '/' :: '/' :: rest.data) =
        'h' :: 't' :: 't' :: 'p' :: ':' :: '/' :: '/' :: rest.data := by
      rw [pyReplaceL_cons_no "wss://".data "https://".data 'h'
            ('t' :: 't' :: 'p' :: ':' :: '/' :: '/' :: rest.data) rfl,
          pyReplaceL_cons_no "wss://".data "https://".data 't'
            ('t' :: 'p' :: ':' :: '/' :: '/' :: rest.data) rfl,
          pyReplaceL_cons_no "wss://".data "https://".data 't'
            ('p' :: ':' :: '/' :: '/' :: rest.data) rfl,
          pyReplaceL_cons_no "wss://".data "https://".data 'p'
            (':' :: '/' :: '/' :: rest.data) rfl,
          pyReplaceL_cons_no "wss://".data "https://".data ':'
            ('/' :: '/' :: rest.data) rfl,
          pyReplaceL_cons_no "wss://".data "https://".data '/'
            ('/' :: rest.data) rfl,
          pyReplaceL_cons_no "wss://".data "https://".data '/' rest.data rfl,
          h2']
    show String.mk (pyReplaceL "wss://".data "https://".data
        (pyReplaceL "ws://".data "http://".data ('w' :: 's' :: ':' :: '/' :: '/' :: rest.data)))
      = "http://" ++ rest
    rw [stepA]
    show String.mk (pyReplaceL "wss://".data "https://".data
        ('h' :: 't' :: 't' :: 'p' :: ':' :: '/' :: '/' :: rest.data)) = "http://" ++ rest
    rw [stepB]
    rfl
  · have stepA : pyReplaceL "ws://".data "http://".data
        ('w' :: 's' :: 's' :: ':' :: '/' :: '/' :: rest.data) =
        'w' :: 's' :: 's' :: ':' :: '/' :: '/' :: rest.data := by
      rw [pyReplaceL_cons_no "ws://".data "http://".data 'w'
            ('s' :: 's' :: ':' :: '/' :: '/' :: rest.data) rfl,
          pyReplaceL_cons_no "ws://".data "http://".data 's'
            ('s' :: ':' :: '/' :: '/' :: rest.data) rfl,
          pyReplaceL_cons_no "ws://".data "http://".data 's'
            (':' :: '/' :: '/' :: rest.data) rfl,
          pyReplaceL_cons_no "ws://".data "http://".data ':'
            ('/' :: '/' :: rest.data) rfl,
          pyReplaceL_cons_no "ws://".data "http://".data '/'
            ('/' :: rest.data) rfl,
          pyReplaceL_cons_no "ws://".data "http://".data '/' rest.data rfl,
          h1']
    have stepB : pyReplaceL "wss://".data "https://".data
        ('w' :: 's' :: 's' :: ':' :: '/' :: '/' :: rest.data) =
        "https://".data ++ rest.data := by
      rw [pyReplaceL_cons_yes "wss://".data "https://".data 'w'
            ('s' :: 's' :: ':' :: '/' :: '/' :: rest.data) (by simp)
            (isPrefixOf_nil_left rest.data)]
      show "https://".data ++ pyReplaceL "wss://".data "https://".data rest.data = _
      rw [h2']
    show String.mk (pyReplaceL "wss://".data "https://".data
        (pyReplaceL "ws://".data "http://".data
          ('w' :: 's' :: 's' :: ':' :: '/' :: '/' :: rest.data))) = "https://" ++ rest
    rw [stepA]
    show String.mk (pyReplaceL "wss://".data "https://".data
        ('w' :: 's' :: 's' :: ':' :: '/' :: '/' :: rest.data)) = "https://" ++ rest
    rw [stepB]
    rfl

/-- Witness for C10 at the concrete URL `ws://localhost:9944`. -/
theorem claim_C10_witness :
    (initAgent ("ws://" ++ "localhost:9944") none).node_url = "http://" ++ "localhost:9944" ∧
    (initAgent ("wss://" ++ "localhost:9944") none).node_url = "https://" ++ "localhost:9944" := by
  have hfree : ∀ c ∈ "localhost:9944".data, c ≠ 'w' := by decide
  have h1 : pyReplace "localhost:9944" "ws://" "http://" = "localhost:9944" :=
    congrArg String.mk
      (pyReplaceL_no_char ('s' :: ':' :: '/' :: '/' :: []) "http://".data 'w'
        "localhost:9944".data hfree)
  have h2 : pyReplace "localhost:9944" "wss://" "https://" = "localhost:9944" :=
    congrArg String.mk
      (pyReplaceL_no_char ('s' :: 's' :: ':' :: '/' :: '/' :: []) "https://".data 'w'
        "localhost:9944".data hfree)
  exact ⟨(claim_C10 "localhost:9944" none h1 h2).1, (claim_C10 "localhost:9944" none h1 h2).2.1⟩

/-! ## Claim C4: connectivity failure aborts the whole run -/

/-- C4: in both pipelines, when the initial connectivity probe completes
with a failure, the run stops right there: it ends normally with a result
log of exactly one entry, the failed "RPC Connection" record, and no
entries for any other probe. -/
theorem claim_C4 (resp : Resp) (fresp : FResp) (pick : Nat) (url : String)
    (furl : Option String) (s1 : AgentState)
    (h : test_connection resp (initAgent url furl) = some (false, s1)) :
    run_health_check resp fresp (initAgent url furl) = some s1 ∧
    run_full_test resp fresp pick (initAgent url furl) = some s1 ∧
    s1.results.length = 1 ∧
    ∃ m d, s1.results = [⟨"RPC Connection", false, m, d⟩] := by
  obtain ⟨⟨m, d, hres⟩, -⟩ := test_connection_shape h
  have hres1 : s1.results = [⟨"RPC Connection", false, m, d⟩] := by
    rw [hres]; rfl
  refine ⟨?_, ?_, by rw [hres1]; rfl, ⟨m, d, hres1⟩⟩
  · unfold run_health_check
    rw [h]
    rfl
  · unfold run_full_test
    rw [h]
    rfl


/-- Witness for C4: a concrete connection-refused run of both pipelines. -/
theorem claim_C4_witness :
    (run_health_check
        (fun _ _ _ => Json.obj [("error", Json.obj [("message", Json.str "Connection refused")])])
        (fun _ _ _ => Json.null) (initAgent "http://localhost:9944" none)).map
      (fun s => s.results.map (fun r => (r.name, r.passed))) =
      some [("RPC Connection", false)] ∧
    (run_full_test
        (fun _ _ _ => Json.obj [("error", Json.obj [("message", Json.str "Connection refused")])])
        (fun _ _ _ => Json.null) 0 (initAgent "http://localhost:9944" none)).map
      (fun s => s.results.map (fun r => (r.name, r.passed))) =
      some [("RPC Connection", false)] := by
  obtain ⟨s1, hs1⟩ : ∃ s1,
      test_connection
        (fun _ _ _ => Json.obj [("error", Json.obj [("message", Json.str "Connection refused")])])
        (initAgent "http://localhost:9944" none) = some (false, s1) := ⟨_, rfl⟩
  obtain ⟨hh, hf, -, m, d, hres⟩ := claim_C4
    (fun _ _ _ => Json.obj [("error", Json.obj [("message", Json.str "Connection refused")])])
    (fun _ _ _ => Json.null) 0 "http://localhost:9944" none s1 hs1
  rw [hh, hf]
  simp [hres]

/-! ## Claim C3: empty-list results -/

/-- C3 fails on the code as stated: on `{"result": []}` the Peers probe
records `passed = false` ("0 peers connected"), because its pass condition
is a strictly positive peer count — matching the spec's own example
scenario 2 but contradicting the claim's "yields passed = true" for the
Peers probe. -/
theorem claim_C3_counterexample :
    (test_peers (fun _ _ _ => Json.obj [("result", Json.arr [])])
        (initAgent "http://localhost:9944" none)).map
      (fun p => p.2.results.map (fun r => (r.name, r.passed, r.message))) =
      some [("Peer Connections", false, "0 peers connected")] := rfl

/-- C3 (amended): on a response whose `result` is an empty list, the
Notarial and Proposals probes record `passed = true`, while the Peers probe
records `passed = count > 0`, hence `false` for the empty list; in all
three probes, only a response without a `result` key reaches the failure
branch (for the Notarial probe, one without an `error` key as well). -/
theorem claim_C3 (resp : Resp) (s : AgentState) :
    (resp (s.rpc_id + 1) "system_peers" [] = Json.obj [("result", Json.arr [])] →
      (test_peers resp s).map (fun p => (p.1, p.2.results)) =
        some (Json.arr [], s.results ++
          [⟨"Peer Connections", false, "0 peers connected",
            some (Json.obj [("peers", Json.arr [])])⟩])) ∧
    (resp (s.rpc_id + 1) "notarial_getAttestationsByOwner" [Json.str ALICE] =
        Json.obj [("result", Json.arr [])] →
      (test_notarial_service resp s).map (fun p => (p.1, p.2.results)) =
        some (true, s.results ++
          [⟨"Notarial Service", true, "0 attestations found",
            some (Json.obj [("count", Json.num 0)])⟩])) ∧
    (resp (s.rpc_id + 1) "quantumharmony_getProposals" [] =
        Json.obj [("result", Json.arr [])] →
      (test_proposals resp s).map (fun p => (p.1, p.2.results)) =
        some (Json.arr [], s.results ++
          [⟨"Proposals", true, "0 proposals",
            some (Json.obj [("count", Json.num 0)])⟩])) ∧
    (∀ kvs, resp (s.rpc_id + 1) "system_peers" [] = Json.obj kvs →
      jLookup kvs "result" = none →
      (test_peers resp s).map (fun p => (p.1, p.2.results)) =
        some (Json.arr [], s.results ++
          [⟨"Peer Connections", false, "Failed to get peers", none⟩])) ∧
    (∀ kvs, resp (s.rpc_id + 1) "notarial_getAttestationsByOwner" [Json.str ALICE] =
        Json.obj kvs →
      jLookup kvs "result" = none → jLookup kvs "error" = none →
      (test_notarial_service resp s).map (fun p => (p.1, p.2.results)) =
        some (false, s.results ++
          [⟨"Notarial Service", false, "Unexpected response", none⟩])) ∧
    (∀ kvs, resp (s.rpc_id + 1) "quantumharmony_getProposals" [] = Json.obj kvs →
      jLookup kvs "result" = none →
      (test_proposals resp s).map (fun p => (p.1, p.2.results)) =
        some (Json.arr [], s.results ++
          [⟨"Proposals", false, "Failed to get proposals", none⟩])) := by
  refine ⟨?_, ?_, ?_, ?_, ?_, ?_⟩
  · intro h
    have he : test_peers resp s = some (Json.arr [],
        record "Peer Connections" false "0 peers connected"
          (some (Json.obj [("peers", Json.arr [])]))
          (rpc_call resp "system_peers" [] s).2) := by
      simp only [test_peers, rpc_call, h]
      rfl
    rw [he]; rfl
  · intro h
    have he : test_notarial_service resp s = some (true,
        record "Notarial Service" true "0 attestations found"
          (some (Json.obj [("count", Json.num 0)]))
          (rpc_call resp "notarial_getAttestationsByOwner" [Json.str ALICE] s).2) := by
      simp only [test_notarial_service, rpc_call, h]
      rfl
    rw [he]; rfl
  · intro h
    have he : test_proposals resp s = some (Json.arr [],
        record "Proposals" true "0 proposals"
          (some (Json.obj [("count", Json.num 0)]))
          (rpc_call resp "quantumharmony_getProposals" [] s).2) := by
      simp only [test_proposals, rpc_call, h]
      rfl
    rw [he]; rfl
  · intro kvs hobj hres
    have he : test_peers resp s = some (Json.arr [],
        record "Peer Connections" false "Failed to get peers" none
          (rpc_call resp "system_peers" [] s).2) := by
      simp only [test_peers, rpc_call, hobj, pyIn, hres, Option.isSome_none]
    rw [he]; rfl
  · intro kvs hobj hres herr
    have he : test_notarial_service resp s = some (false,
        record "Notarial Service" false "Unexpected response" none
          (rpc_call resp "notarial_getAttestationsByOwner" [Json.str ALICE] s).2) := by
      simp only [test_notarial_service, rpc_call, hobj, pyIn, hres, herr, Option.isSome_none]
    rw [he]; rfl
  · intro kvs hobj hres
    have he : test_proposals resp s = some (Json.arr [],
        record "Proposals" false "Failed to get proposals" none
          (rpc_call resp "quantumharmony_getProposals" [] s).2) := by
      simp only [test_proposals, rpc_call, hobj, pyIn, hres, Option.isSome_none]
    rw [he]; rfl

/-- Witness for C3: concrete empty-list and missing-key responses. -/
theorem claim_C3_witness :
    (test_notarial_service (fun _ _ _ => Json.obj [("result", Json.arr [])])
        (initAgent "http://localhost:9944" none)).map
      (fun p => (p.1, p.2.results)) =
      some (true, [] ++
        [⟨"Notarial Service", true, "0 attestations found",
          some (Json.obj [("count", Json.num 0)])⟩]) ∧
    (test_proposals (fun _ _ _ => Json.obj [("result", Json.arr [])])
        (initAgent "http://localhost:9944" none)).map
      (fun p => (p.1, p.2.results)) =
      some (Json.arr [], [] ++
        [⟨"Proposals", true, "0 proposals", some (Json.obj [("count", Json.num 0)])⟩]) ∧
    (test_peers (fun _ _ _ => Json.obj [("jsonrpc", Json.str "2.0")])
        (initAgent "http://localhost:9944" none)).map
      (fun p => (p.1, p.2.results)) =
      some (Json.arr [], [] ++
        [⟨"Peer Connections", false, "Failed to get peers", none⟩]) :=
  ⟨(claim_C3 (fun _ _ _ => Json.obj [("result", Json.arr [])])
      (initAgent "http://localhost:9944" none)).2.1 rfl,
   (claim_C3 (fun _ _ _ => Json.obj [("result", Json.arr [])])
      (initAgent "http://localhost:9944" none)).2.2.1 rfl,
   (claim_C3 (fun _ _ _ => Json.obj [("jsonrpc", Json.str "2.0")])
      (initAgent "http://localhost:9944" none)).2.2.2.1
      [("jsonrpc", Json.str "2.0")] rfl rfl⟩

/-! ## Claim C6: faucet-health error routing -/

/-- C6: for a faucet `/health` reply carrying an `error` object, the probe
fails with the service-down message when the error text contains "502" or
"Bad Gateway", with the not-running message when it contains "Connection
refused" (and none of the former), and with the generic `Error: …` message
otherwise; any reply without an `error` key yields `passed = true`, with
or without an explicit healthy flag. -/
theorem claim_C6 (fresp : FResp) (s : AgentState)
    (hcfg : faucetConfigured s.faucet_url = true) :
    (∀ kvs ekvs msg,
      fresp "/health" "GET" Json.null = Json.obj kvs →
      jLookup kvs "error" = some (Json.obj ekvs) →
      (jLookup ekvs "message").getD (Json.str "Unknown error") = msg →
      ((strContains (pyStr msg) "502" || strContains (pyStr msg) "Bad Gateway") = true →
        (test_faucet_health fresp s).map (fun p => (p.1, p.2.results)) =
          some (false, s.results ++
            [⟨"Faucet Health", false, "502 Bad Gateway - Faucet service is down", none⟩])) ∧
      ((strContains (pyStr msg) "502" || strContains (pyStr msg) "Bad Gateway") = false →
        strContains (pyStr msg) "Connection refused" = true →
        (test_faucet_health fresp s).map (fun p => (p.1, p.2.results)) =
          some (false, s.results ++
            [⟨"Faucet Health", false, "Connection refused - Faucet not running", none⟩])) ∧
      ((strContains (pyStr msg) "502" || strContains (pyStr msg) "Bad Gateway") = false →
        strContains (pyStr msg) "Connection refused" = false →
        (test_faucet_health fresp s).map (fun p => (p.1, p.2.results)) =
          some (false, s.results ++
            [⟨"Faucet Health", false, "Error: " ++ pyStr msg, none⟩]))) ∧
    (∀ kvs,
      fresp "/health" "GET" Json.null = Json.obj kvs →
      jLookup kvs "error" = none →
      ∃ m d, (test_faucet_health fresp s).map (fun p => (p.1, p.2.results)) =
        some (true, s.results ++ [⟨"Faucet Health", true, m, d⟩])) := by
  constructor
  · intro kvs ekvs msg hr herr hmsg
    refine ⟨?_, ?_, ?_⟩
    · intro h502
      have he : test_faucet_health fresp s = some (false,
          record "Faucet Health" false "502 Bad Gateway - Faucet service is down" none s) := by
        simp only [test_faucet_health, faucet_call, hcfg, Bool.not_true, Bool.false_eq_true,
          if_false, hr, pyIn, pyIndex, herr, hmsg, Option.isSome_some, pyGet, h502]
        rfl
      rw [he]; rfl
    · intro h502 href
      have he : test_faucet_health fresp s = some (false,
          record "Faucet Health" false "Connection refused - Faucet not running" none s) := by
        simp only [test_faucet_health, faucet_call, hcfg, Bool.not_true, Bool.false_eq_true,
          if_false, hr, pyIn, pyIndex, herr, hmsg, Option.isSome_some, pyGet, h502, href]
        rfl
      rw [he]; rfl
    · intro h502 href
      have he : test_faucet_health fresp s = some (false,
          record "Faucet Health" false ("Error: " ++ pyStr msg) none s) := by
        simp only [test_faucet_health, faucet_call, hcfg, Bool.not_true, Bool.false_eq_true,
          if_false, hr, pyIn, pyIndex, herr, hmsg, Option.isSome_some, pyGet, h502, href]
      rw [he]; rfl
  · intro kvs hr hnoerr
    by_cases hflag : (pyEqStr ((jLookup kvs "status").getD Json.null) "ok" ||
        truthy ((jLookup kvs "healthy").getD Json.null)) = true
    · refine ⟨"Faucet service is healthy", some (Json.obj kvs), ?_⟩
      have he : test_faucet_health fresp s = some (true,
          record "Faucet Health" true "Faucet service is healthy" (some (Json.obj kvs)) s) := by
        simp only [test_faucet_health, faucet_call, hcfg, Bool.not_true, Bool.false_eq_true,
          if_false, hr, pyIn, pyGet, hnoerr, Option.isSome_none, hflag, if_true]
      rw [he]; rfl
    · rw [Bool.not_eq_true] at hflag
      refine ⟨"Faucet responded: " ++ pyStr (Json.obj kvs), some (Json.obj kvs), ?_⟩
      have he : test_faucet_health fresp s = some (true,
          record "Faucet Health" true ("Faucet responded: " ++ pyStr (Json.obj kvs))
            (some (Json.obj kvs)) s) := by
        simp only [test_faucet_health, faucet_call, hcfg, Bool.not_true, Bool.false_eq_true,
          if_false, hr, pyIn, pyGet, hnoerr, Option.isSome_none, hflag]
      rw [he]; rfl

/-- Witness for C6: a concrete 502 error and a concrete healthy reply. -/
theorem claim_C6_witness :
    (test_faucet_health (fun _ _ _ =>
        Json.obj [("error", Json.obj [("message", Json.str "HTTP Error 502: Bad Gateway")])])
        (initAgent "http://localhost:9944" (some "http://localhost:3000"))).map
      (fun p => (p.1, p.2.results)) =
      some (false, [] ++
        [⟨"Faucet Health", false, "502 Bad Gateway - Faucet service is down", none⟩]) ∧
    (test_faucet_health (fun _ _ _ =>
        Json.obj [("error", Json.obj [("message", Json.str "urlopen error Connection refused")])])
        (initAgent "http://localhost:9944" (some "http://localhost:3000"))).map
      (fun p => (p.1, p.2.results)) =
      some (false, [] ++
        [⟨"Faucet Health", false, "Connection refused - Faucet not running", none⟩]) ∧
    ∃ m d, (test_faucet_health (fun _ _ _ => Json.obj [("status", Json.str "ok")])
        (initAgent "http://localhost:9944" (some "http://localhost:3000"))).map
      (fun p => (p.1, p.2.results)) =
      some (true, [] ++ [⟨"Faucet Health", true, m, d⟩]) :=
  ⟨(((claim_C6 (fun _ _ _ =>
        Json.obj [("error", Json.obj [("message", Json.str "HTTP Error 502: Bad Gateway")])])
        (initAgent "http://localhost:9944" (some "http://localhost:3000")) rfl).1
      _ _ _ rfl rfl rfl).1 rfl),
   (((claim_C6 (fun _ _ _ =>
        Json.obj [("error", Json.obj [("message", Json.str "urlopen error Connection refused")])])
        (initAgent "http://localhost:9944" (some "http://localhost:3000")) rfl).1
      _ _ _ rfl rfl rfl).2.1 rfl rfl),
   ((claim_C6 (fun _ _ _ => Json.obj [("status", Json.str "ok")])
        (initAgent "http://localhost:9944" (some "http://localhost:3000")) rfl).2
      _ rfl rfl)⟩

/-! ## Claim C7: the notarial probe's judgment -/

/-- C7: the Notarial probe passes whenever a `result` key is present (even
with a null or empty-list value), and whenever an `error` object is present
whose code is not -32601; it fails exactly on error code -32601 or on a
response with neither `result` nor `error`. -/
theorem claim_C7 (resp : Resp) (s : AgentState) (kvs : List (String × Json))
    (hr : resp (s.rpc_id + 1) "notarial_getAttestationsByOwner" [Json.str ALICE] =
      Json.obj kvs) :
    (∀ v, jLookup kvs "result" = some v →
      (test_notarial_service resp s).map
        (fun p => (p.1, p.2.results.map (fun r => (r.name, r.passed)))) =
      some (true, s.results.map (fun r => (r.name, r.passed)) ++
        [("Notarial Service", true)])) ∧
    (∀ ekvs, jLookup kvs "result" = none →
      jLookup kvs "error" = some (Json.obj ekvs) →
      pyEqInt ((jLookup ekvs "code").getD Json.null) (-32601) = false →
      (test_notarial_service resp s).map (fun p => (p.1, p.2.results)) =
        some (true, s.results ++
          [⟨"Notarial Service", true, "Notarial service responding",
            some (Json.obj kvs)⟩])) ∧
    (∀ ekvs, jLookup kvs "result" = none →
      jLookup kvs "error" = some (Json.obj ekvs) →
      pyEqInt ((jLookup ekvs "code").getD Json.null) (-32601) = true →
      (test_notarial_service resp s).map (fun p => (p.1, p.2.results)) =
        some (false, s.results ++
          [⟨"Notarial Service", false, "Notarial RPC not available", none⟩])) ∧
    (jLookup kvs "result" = none → jLookup kvs "error" = none →
      (test_notarial_service resp s).map (fun p => (p.1, p.2.results)) =
        some (false, s.results ++
          [⟨"Notarial Service", false, "Unexpected response", none⟩])) := by
  refine ⟨?_, ?_, ?_, ?_⟩
  · intro v hres
    have he : test_notarial_service resp s = some (true,
        record "Notarial Service" true
          (toString (match (if truthy v then v else Json.arr []) with
            | Json.arr xs => (xs.length : Int) | _ => 0) ++ " attestations found")
          (some (Json.obj [("count", Json.num (match (if truthy v then v else Json.arr []) with
            | Json.arr xs => (xs.length : Int) | _ => 0))]))
          (rpc_call resp "notarial_getAttestationsByOwner" [Json.str ALICE] s).2) := by
      simp only [test_notarial_service, rpc_call, hr, pyIn, pyIndex, hres, Option.isSome_some]
    rw [he]
    simp [record, rpc_call]
  · intro ekvs hres herr hcode
    have he : test_notarial_service resp s = some (true,
        record "Notarial Service" true "Notarial service responding"
          (some (Json.obj kvs))
          (rpc_call resp "notarial_getAttestationsByOwner" [Json.str ALICE] s).2) := by
      simp only [test_notarial_service, rpc_call, hr, pyIn, pyIndex, hres, herr,
        Option.isSome_some, Option.isSome_none, pyGet, hcode]
      rfl
    rw [he]; rfl
  · intro ekvs hres herr hcode
    have he : test_notarial_service resp s = some (false,
        record "Notarial Service" false "Notarial RPC not available" none
          (rpc_call resp "notarial_getAttestationsByOwner" [Json.str ALICE] s).2) := by
      simp only [test_notarial_service, rpc_call, hr, pyIn, pyIndex, hres, herr,
        Option.isSome_some, Option.isSome_none, pyGet, hcode]
      rfl
    rw [he]; rfl
  · intro hres herr
    have he : test_notarial_service resp s = some (false,
        record "Notarial Service" false "Unexpected response" none
          (rpc_call resp "notarial_getAttestationsByOwner" [Json.str ALICE] s).2) := by
      simp only [test_notarial_service, rpc_call, hr, pyIn, pyIndex, hres, herr,
        Option.isSome_none]
    rw [he]; rfl

/-- Witness for C7: a null result, a soft error, and a method-not-found
error, all at concrete inputs. -/
theorem claim_C7_witness :
    (test_notarial_service (fun _ _ _ => Json.obj [("result", Json.null)])
        (initAgent "http://localhost:9944" none)).map
      (fun p => (p.1, p.2.results.map (fun r => (r.name, r.passed)))) =
      some (true, [] ++ [("Notarial Service", true)]) ∧
    (test_notarial_service (fun _ _ _ =>
        Json.obj [("error", Json.obj [("code", Json.num (-32000)), ("message", Json.str "busy")])])
        (initAgent "http://localhost:9944" none)).map
      (fun p => (p.1, p.2.results)) =
      some (true, [] ++
        [⟨"Notarial Service", true, "Notarial service responding",
          some (Json.obj [("error", Json.obj
            [("code", Json.num (-32000)), ("message", Json.str "busy")])])⟩]) ∧
    (test_notarial_service (fun _ _ _ =>
        Json.obj [("error", Json.obj [("code", Json.num (-32601)), ("message", Json.str "Method not found")])])
        (initAgent "http://localhost:9944" none)).map
      (fun p => (p.1, p.2.results)) =
      some (false, [] ++
        [⟨"Notarial Service", false, "Notarial RPC not available", none⟩]) :=
  ⟨(claim_C7 (fun _ _ _ => Json.obj [("result", Json.null)])
      (initAgent "http://localhost:9944" none) [("result", Json.null)] rfl).1 Json.null rfl,
   (claim_C7 (fun _ _ _ =>
        Json.obj [("error", Json.obj [("code", Json.num (-32000)), ("message", Json.str "busy")])])
      (initAgent "http://localhost:9944" none)
      [("error", Json.obj [("code", Json.num (-32000)), ("message", Json.str "busy")])] rfl).2.1
      [("code", Json.num (-32000)), ("message", Json.str "busy")] rfl rfl rfl,
   (claim_C7 (fun _ _ _ =>
        Json.obj [("error", Json.obj [("code", Json.num (-32601)), ("message", Json.str "Method not found")])])
      (initAgent "http://localhost:9944" none)
      [("error", Json.obj [("code", Json.num (-32601)), ("message", Json.str "Method not found")])] rfl).2.2.1
      [("code", Json.num (-32601)), ("message", Json.str "Method not found")] rfl rfl rfl⟩

/-! ## Claim C8: the faucet-gated double balance check -/


/-- Name/passed projection of the result log. -/
def resView (s : AgentState) : List (String × Bool) :=
  s.results.map (fun r => (r.name, r.passed))

/-- Method/params projection of the issued envelopes. -/
def sentView (s : AgentState) : List (String × List Json) :=
  s.sent.map reqView

theorem resView_append {s s' : AgentState} {r : TestResult}
    (h : s'.results = s.results ++ [r]) :
    resView s' = resView s ++ [(r.name, r.passed)] := by
  simp [resView, h]

theorem run_full_tail_shape {resp : Resp} {s : AgentState} {fin : AgentState}
    (h : run_full_tail resp s = some fin) :
    (∃ b8 b9 b10 b11 b12 b13 b14 b15 b16 b17 : Bool,
      resView fin = resView s ++
        [("Gateway Balance", b8), ("Gateway Nonce", b9), ("QRNG Config", b10),
         ("QRNG Queues", b11), ("QRNG History", b12), ("Notarial Service", b13),
         ("Governance Stats", b14), ("Proposals", b15), ("Validator Set", b16),
         ("Rewards Info", b17)]) ∧
    sentView fin = sentView s ++
      [("gateway_balance", [Json.str ALICE]), ("gateway_nonce", [Json.str ALICE]),
       ("qrng_getConfig", []), ("qrng_getDeviceQueues", []),
       ("qrng_getReconstructionHistory", [Json.num 10]),
       ("notarial_getAttestationsByOwner", [Json.str ALICE]),
       ("quantumharmony_getGovernanceStats", []), ("quantumharmony_getProposals", []),
       ("quantumharmony_getValidatorSet", []),
       ("quantumharmony_getRewardsInfo", [Json.str ALICE])] := by
  simp only [run_full_tail] at h
  rcases h10 : test_gateway_balance resp ALICE s with _ | ⟨v10, s10⟩ <;> rw [h10] at h
  · exact absurd h (by simp)
  simp only [] at h
  rcases h11 : test_gateway_nonce resp ALICE s10 with _ | ⟨v11, s11⟩ <;> rw [h11] at h
  · exact absurd h (by simp)
  simp only [] at h
  rcases h12 : test_qrng_config resp s11 with _ | ⟨v12, s12⟩ <;> rw [h12] at h
  · exact absurd h (by simp)
  simp only [] at h
  rcases h13 : test_qrng_device_queues resp s12 with _ | ⟨v13, s13⟩ <;> rw [h13] at h
  · exact absurd h (by simp)
  simp only [] at h
  rcases h14 : test_qrng_reconstruction resp s13 with _ | ⟨v14, s14⟩ <;> rw [h14] at h
  · exact absurd h (by simp)
  simp only [] at h
  rcases h15 : test_notarial_service resp s14 with _ | ⟨v15, s15⟩ <;> rw [h15] at h
  · exact absurd h (by simp)
  simp only [] at h
  rcases h16 : test_governance_stats resp s15 with _ | ⟨v16, s16⟩ <;> rw [h16] at h
  · exact absurd h (by simp)
  simp only [] at h
  rcases h17 : test_proposals resp s16 with _ | ⟨v17, s17⟩ <;> rw [h17] at h
  · exact absurd h (by simp)
  simp only [] at h
  rcases h18 : test_validator_set resp s17 with _ | ⟨v18, s18⟩ <;> rw [h18] at h
  · exact absurd h (by simp)
  simp only [] at h
  rcases h19 : test_rewards_info resp s18 with _ | ⟨v19, s19⟩ <;> rw [h19] at h
  · exact absurd h (by simp)
  simp only [Option.some.injEq] at h
  subst h
  obtain ⟨⟨b10', m, d, e10⟩, c10⟩ := test_gateway_balance_shape h10
  obtain ⟨⟨b11', m11, d11, e11⟩, c11⟩ := test_gateway_nonce_shape h11
  obtain ⟨⟨b12', m12, d12, e12⟩, c12⟩ := test_qrng_config_shape h12
  obtain ⟨⟨b13', m13, d13, e13⟩, c13⟩ := test_qrng_device_queues_shape h13
  obtain ⟨⟨b14', m14, d14, e14⟩, c14⟩ := test_qrng_reconstruction_shape h14
  obtain ⟨⟨m15, d15, e15⟩, c15⟩ := test_notarial_service_shape h15
  obtain ⟨⟨b16', m16, d16, e16⟩, c16⟩ := test_governance_stats_shape h16
  obtain ⟨⟨b17', m17, d17, e17⟩, c17⟩ := test_proposals_shape h17
  obtain ⟨⟨b18', m18, d18, e18⟩, c18⟩ := test_validator_set_shape h18
  obtain ⟨⟨b19', m19, d19, e19⟩, c19⟩ := test_rewards_info_shape h19
  constructor
  · refine ⟨b10', b11', b12', b13', b14', v15, b16', b17', b18', b19', ?_⟩
    rw [resView_append e19, resView_append e18, resView_append e17, resView_append e16,
        resView_append e15, resView_append e14, resView_append e13, resView_append e12,
        resView_append e11, resView_append e10]
    simp
  · show s19.sent.map reqView = s.sent.map reqView ++ _
    rw [c19, c18, c17, c16, c15, c14, c13, c12, c11, c10]
    simp



/-- C8: in every completed full-pipeline run where the FaucetHealth probe
passed, the balance probe is invoked twice with the same selected address
(two `system_account` envelopes with identical params) and the log holds
exactly two "Account Balance" entries with the "Faucet Drip" entry strictly
between them; where FaucetHealth failed, drip and re-check are skipped and
exactly one "Account Balance" entry is recorded. -/
theorem claim_C8 (resp : Resp) (fresp : FResp) (pick : Nat) (url : String)
    (furl : Option String) (fin : AgentState)
    (h : run_full_test resp fresp pick (initAgent url furl) = some fin) :
    ((∃ r ∈ fin.results, r.name = "Faucet Health" ∧ r.passed = true) →
      fin.results.countP (fun r => r.name == "Account Balance") = 2 ∧
      fin.results.countP (fun r => r.name == "Faucet Drip") = 1 ∧
      (∃ i j k : Nat, i < j ∧ j < k ∧
        (fin.results.map (fun r => r.name)).get? i = some "Account Balance" ∧
        (fin.results.map (fun r => r.name)).get? j = some "Faucet Drip" ∧
        (fin.results.map (fun r => r.name)).get? k = some "Account Balance") ∧
      fin.sent.countP (fun q => q.method == "system_account") = 2 ∧
      (∀ q ∈ fin.sent, q.method = "system_account" →
        q.params = [Json.str (selectAccount pick).address])) ∧
    ((∃ r ∈ fin.results, r.name = "Faucet Health" ∧ r.passed = false) →
      fin.results.countP (fun r => r.name == "Account Balance") = 1 ∧
      fin.results.countP (fun r => r.name == "Faucet Drip") = 0) := by
  simp only [run_full_test] at h
  rcases h1 : test_connection resp (initAgent url furl) with _ | ⟨conn, s1⟩ <;> rw [h1] at h
  · exact absurd h (by simp)
  simp only [] at h
  obtain ⟨⟨m1, d1, e1⟩, c1⟩ := test_connection_shape h1
  cases conn with
  | false =>
    rw [Bool.not_false, if_pos rfl] at h
    simp only [Option.some.injEq] at h
    subst h
    have hres : s1.results = [⟨"RPC Connection", false, m1, d1⟩] := by
      rw [e1]; rfl
    constructor <;>
      (intro hex; exfalso
       obtain ⟨r, hrmem, hrname, -⟩ := hex
       rw [hres] at hrmem
       simp only [List.mem_singleton] at hrmem
       subst hrmem
       simp at hrname)
  | true =>
    rw [Bool.not_true, if_neg Bool.false_ne_true] at h
    rcases h2 : test_chain_info resp s1 with _ | ⟨v2, s2⟩ <;> rw [h2] at h
    · exact absurd h (by simp)
    simp only [] at h
    rcases h3 : test_peers resp s2 with _ | ⟨v3, s3⟩ <;> rw [h3] at h
    · exact absurd h (by simp)
    simp only [] at h
    rcases h4 : test_faucet_health fresp s3 with _ | ⟨fh, s4⟩ <;> rw [h4] at h
    · exact absurd h (by simp)
    simp only [] at h
    rcases h5 : test_account_balance resp (generate_test_account pick s4).1.address
        (generate_test_account pick s4).2 with _ | ⟨v5, s6⟩ <;> rw [h5] at h
    · exact absurd h (by simp)
    simp only [] at h
    obtain ⟨⟨m2, d2, e2⟩, c2⟩ := test_chain_info_shape h2
    obtain ⟨⟨b3, m3, d3, e3⟩, c3⟩ := test_peers_shape h3
    obtain ⟨⟨m4, d4, e4⟩, c4⟩ := test_faucet_health_shape h4
    obtain ⟨⟨m5, d5, e5⟩, c5⟩ := test_account_balance_shape h5
    obtain ⟨⟨mA, dA, eA⟩, cA⟩ := generate_test_account_shape pick s4
    have vInit : resView (initAgent url furl) = [] := rfl
    have sInit : sentView (initAgent url furl) = [] := rfl
    have v6 : resView s6 = [("RPC Connection", true), ("Chain Info", true),
        ("Peer Connections", b3), ("Faucet Health", fh), ("Account Selection", true),
        ("Account Balance", true)] := by
      rw [resView_append e5, resView_append eA, resView_append e4, resView_append e3,
          resView_append e2, resView_append e1, vInit]
      simp
    have s6sent : sentView s6 =
        [("system_health", []), ("system_chain", []), ("chain_getHeader", []),
         ("state_getRuntimeVersion", []), ("system_name", []), ("system_peers", []),
         ("system_account", [Json.str (selectAccount pick).address])] := by
      show s6.sent.map reqView = _
      rw [c5, cA, c4, c3, c2, c1]
      simp [initAgent, generate_test_account, selectAccount, reqView]
    cases fh with
    | true =>
      rw [if_pos rfl] at h
      rcases h6 : test_faucet_drip fresp (generate_test_account pick s4).1.address s6
        with _ | ⟨v6d, s7⟩ <;> rw [h6] at h
      · exact absurd h (by simp)
      simp only [] at h
      rcases h7 : test_account_balance resp (generate_test_account pick s4).1.address s7
        with _ | ⟨v7, s8⟩ <;> rw [h7] at h
      · exact absurd h (by simp)
      simp only [] at h
      obtain ⟨⟨m6, d6, e6⟩, c6⟩ := test_faucet_drip_shape h6
      obtain ⟨⟨m7, d7, e7⟩, c7⟩ := test_account_balance_shape h7
      obtain ⟨⟨b8, b9, b10, b11, b12, b13, b14, b15, b16, b17, vTail⟩, sTail⟩ :=
        run_full_tail_shape h
      have vFin : resView fin =
          [("RPC Connection", true), ("Chain Info", true), ("Peer Connections", b3),
           ("Faucet Health", true), ("Account Selection", true), ("Account Balance", true),
           ("Faucet Drip", v6d), ("Account Balance", true), ("Gateway Balance", b8),
           ("Gateway Nonce", b9), ("QRNG Config", b10), ("QRNG Queues", b11),
           ("QRNG History", b12), ("Notarial Service", b13), ("Governance Stats", b14),
           ("Proposals", b15), ("Validator Set", b16), ("Rewards Info", b17)] := by
        rw [vTail, resView_append e7, resView_append e6, v6]
        simp
      have c7' : sentView s8 = sentView s7 ++
          [("system_account", [Json.str (generate_test_account pick s4).1.address])] := c7
      have c6' : s7.sent = s6.sent := c6
      have sFin : sentView fin =
          [("system_health", []), ("system_chain", []), ("chain_getHeader", []),
           ("state_getRuntimeVersion", []), ("system_name", []), ("system_peers", []),
           ("system_account", [Json.str (selectAccount pick).address]),
           ("system_account", [Json.str (selectAccount pick).address]),
           ("gateway_balance", [Json.str ALICE]), ("gateway_nonce", [Json.str ALICE]),
           ("qrng_getConfig", []), ("qrng_getDeviceQueues", []),
           ("qrng_getReconstructionHistory", [Json.num 10]),
           ("notarial_getAttestationsByOwner", [Json.str ALICE]),
           ("quantumharmony_getGovernanceStats", []), ("quantumharmony_getProposals", []),
           ("quantumharmony_getValidatorSet", []),
           ("quantumharmony_getRewardsInfo", [Json.str ALICE])] := by
        rw [sTail, c7']
        show (s7.sent.map reqView) ++ _ ++ _ = _
        rw [c6']
        show sentView s6 ++ _ ++ _ = _
        rw [s6sent]
        simp [generate_test_account, selectAccount]
      constructor
      · intro _
        refine ⟨?_, ?_, ⟨5, 6, 7, by omega, by omega, ?_, ?_, ?_⟩, ?_, ?_⟩
        · have h' := congrArg
            (List.countP (fun q : String × Bool => q.1 == "Account Balance")) vFin
          simpa [resView, List.countP_map, Function.comp] using h'
        · have h' := congrArg
            (List.countP (fun q : String × Bool => q.1 == "Faucet Drip")) vFin
          simpa [resView, List.countP_map, Function.comp] using h'
        · have hn : fin.results.map (fun r => r.name) =
              ["RPC Connection", "Chain Info", "Peer Connections", "Faucet Health",
               "Account Selection", "Account Balance", "Faucet Drip", "Account Balance",
               "Gateway Balance", "Gateway Nonce", "QRNG Config", "QRNG Queues",
               "QRNG History", "Notarial Service", "Governance Stats", "Proposals",
               "Validator Set", "Rewards Info"] := by
            have h' := congrArg (List.map Prod.fst) vFin
            simpa [resView, List.map_map, Function.comp] using h'
          rw [hn]
          rfl
        · have hn : fin.results.map (fun r => r.name) =
              ["RPC Connection", "Chain Info", "Peer Connections", "Faucet Health",
               "Account Selection", "Account Balance", "Faucet Drip", "Account Balance",
               "Gateway Balance", "Gateway Nonce", "QRNG Config", "QRNG Queues",
               "QRNG History", "Notarial Service", "Governance Stats", "Proposals",
               "Validator Set", "Rewards Info"] := by
            have h' := congrArg (List.map Prod.fst) vFin
            simpa [resView, List.map_map, Function.comp] using h'
          rw [hn]
          rfl
        · have hn : fin.results.map (fun r => r.name) =
              ["RPC Connection", "Chain Info", "Peer Connections", "Faucet Health",
               "Account Selection", "Account Balance", "Faucet Drip", "Account Balance",
               "Gateway Balance", "Gateway Nonce", "QRNG Config", "QRNG Queues",
               "QRNG History", "Notarial Service", "Governance Stats", "Proposals",
               "Validator Set", "Rewards Info"] := by
            have h' := congrArg (List.map Prod.fst) vFin
            simpa [resView, List.map_map, Function.comp] using h'
          rw [hn]
          rfl
        · have h' := congrArg
            (List.countP (fun q : String × List Json => q.1 == "system_account")) sFin
          simpa [sentView, List.countP_map, Function.comp, reqView] using h'
        · intro q hq hm
          have hmem : reqView q ∈ sentView fin := List.mem_map_of_mem reqView hq
          rw [sFin] at hmem
          simp only [reqView, hm, List.mem_cons, List.not_mem_nil, or_false] at hmem
          rcases hmem with hh | hh | hh | hh | hh | hh | hh | hh | hh | hh | hh | hh |
            hh | hh | hh | hh | hh | hh <;>
            first
            | (simp at hh; exact hh)
            | simp at hh
      · intro hex
        exfalso
        obtain ⟨r, hrmem, hrname, hrpass⟩ := hex
        have hmem : (r.name, r.passed) ∈ resView fin :=
          List.mem_map_of_mem (fun t => (t.name, t.passed)) hrmem
        rw [vFin, hrname, hrpass] at hmem
        simp at hmem
    | false =>
      rw [if_neg Bool.false_ne_true] at h
      simp only [] at h
      obtain ⟨⟨b8, b9, b10, b11, b12, b13, b14, b15, b16, b17, vTail⟩, sTail⟩ :=
        run_full_tail_shape h
      have vFin : resView fin =
          [("RPC Connection", true), ("Chain Info", true), ("Peer Connections", b3),
           ("Faucet Health", false), ("Account Selection", true), ("Account Balance", true),
           ("Gateway Balance", b8), ("Gateway Nonce", b9), ("QRNG Config", b10),
           ("QRNG Queues", b11), ("QRNG History", b12), ("Notarial Service", b13),
           ("Governance Stats", b14), ("Proposals", b15), ("Validator Set", b16),
           ("Rewards Info", b17)] := by
        rw [vTail, v6]
        simp
      constructor
      · intro hex
        exfalso
        obtain ⟨r, hrmem, hrname, hrpass⟩ := hex
        have hmem : (r.name, r.passed) ∈ resView fin :=
          List.mem_map_of_mem (fun t => (t.name, t.passed)) hrmem
        rw [vFin, hrname, hrpass] at hmem
        simp at hmem
      · intro _
        constructor
        · have h' := congrArg
            (List.countP (fun q : String × Bool => q.1 == "Account Balance")) vFin
          simpa [resView, List.countP_map, Function.comp] using h'
        · have h' := congrArg
            (List.countP (fun q : String × Bool => q.1 == "Faucet Drip")) vFin
          simpa [resView, List.countP_map, Function.comp] using h'


/-- A node oracle under which every probe of the full pipeline completes. -/
def demoResp : Resp := fun _ m _ =>
  if m == "system_health" then
    Json.obj [("result", Json.obj [("peers", Json.num 3), ("isSyncing", Json.bool false)])]
  else if m == "chain_getHeader" then
    Json.obj [("result", Json.obj [("number", Json.str "0x10")])]
  else if m == "state_getRuntimeVersion" then
    Json.obj [("result", Json.obj [("specVersion", Json.num 1)])]
  else if m == "system_account" then Json.obj [("result", Json.null)]
  else if m == "qrng_getConfig" then
    Json.obj [("result", Json.obj [("threshold_k", Json.num 3), ("total_devices_m", Json.num 5)])]
  else if m == "quantumharmony_getGovernanceStats" then Json.obj [("result", Json.obj [])]
  else if m == "quantumharmony_getRewardsInfo" then Json.obj [("result", Json.obj [])]
  else Json.obj [("result", Json.arr [])]

/-- A healthy faucet oracle. -/
def demoFresp : FResp := fun _ _ _ => Json.obj [("status", Json.str "ok")]

/-- A faucet oracle that reports a 502 on every endpoint. -/
def demoFrespDown : FResp := fun _ _ _ =>
  Json.obj [("error", Json.obj [("message", Json.str "502 Bad Gateway")])]

/-- Witness for C8: one healthy-faucet and one faucet-down full run. -/
theorem claim_C8_witness :
    (run_full_test demoResp demoFresp 0
        (initAgent "http://localhost:9944" (some "http://localhost:3000"))).map
      (fun s => (s.results.countP (fun r => r.name == "Account Balance"),
                 s.results.countP (fun r => r.name == "Faucet Drip"))) = some (2, 1) ∧
    (run_full_test demoResp demoFrespDown 0
        (initAgent "http://localhost:9944" (some "http://localhost:3000"))).map
      (fun s => (s.results.countP (fun r => r.name == "Account Balance"),
                 s.results.countP (fun r => r.name == "Faucet Drip"))) = some (1, 0) := by
  constructor
  · obtain ⟨fin, hfin, hmem⟩ : ∃ fin,
        run_full_test demoResp demoFresp 0
          (initAgent "http://localhost:9944" (some "http://localhost:3000")) = some fin ∧
        (fin.results.map (fun r => (r.name, r.passed))).get? 3 =
          some ("Faucet Health", true) := ⟨_, rfl, rfl⟩
    obtain ⟨r, hrmem, hrq⟩ := List.mem_map.mp (List.get?_mem hmem)
    obtain ⟨hA, -⟩ := claim_C8 demoResp demoFresp 0 "http://localhost:9944"
      (some "http://localhost:3000") fin hfin
    obtain ⟨hAB, hFD, -⟩ := hA ⟨r, hrmem, congrArg Prod.fst hrq, congrArg Prod.snd hrq⟩
    rw [hfin]
    simp [hAB, hFD]
  · obtain ⟨fin, hfin, hmem⟩ : ∃ fin,
        run_full_test demoResp demoFrespDown 0
          (initAgent "http://localhost:9944" (some "http://localhost:3000")) = some fin ∧
        (fin.results.map (fun r => (r.name, r.passed))).get? 3 =
          some ("Faucet Health", false) := ⟨_, rfl, rfl⟩
    obtain ⟨r, hrmem, hrq⟩ := List.mem_map.mp (List.get?_mem hmem)
    obtain ⟨-, hB⟩ := claim_C8 demoResp demoFrespDown 0 "http://localhost:9944"
      (some "http://localhost:3000") fin hfin
    obtain ⟨hAB, hFD⟩ := hB ⟨r, hrmem, congrArg Prod.fst hrq, congrArg Prod.snd hrq⟩
    rw [hfin]
    simp [hAB, hFD]

end QHNode
